import Mathlib

/-!
Verification development for the neuroverse clinical fusion service
(app/services/fusion_service.py).  The Python module is shallowly embedded:
float arithmetic is modelled over the rationals, dictionaries of optional
numeric features become a structure of Option fields, and the enum classes
become inductive types carrying their string values.  Display-only entries of
the returned dictionaries (the formatted domain-score strings and the
per-category metrics blocks) are elided; every field a claim touches is kept.
Python round(x, n) is modelled by rational rounding to n decimal places
(round-half-up; no input considered here lands on a half-way tie).
-/

namespace Neuroverse

/-- Rounding to two decimal places, the model of the Python round(x, 2)
calls that format every returned risk, score and confidence value. -/
def round2 (x : ℚ) : ℚ := (round (x * 100) : ℤ) / 100

/-- Rounding to one decimal place, the model of round(x, 1). -/
def round1 (x : ℚ) : ℚ := (round (x * 10) : ℤ) / 10

/-- Enum CognitiveStage of fusion_service.py (CDR based staging). -/
inductive CognitiveStage where
  | NORMAL
  | SUBJECTIVE_DECLINE
  | MCI
  | MILD_DEMENTIA
  | MODERATE_DEMENTIA
  | SEVERE_DEMENTIA
deriving DecidableEq, Repr

/-- String value of each CognitiveStage member. -/
def CognitiveStage.value : CognitiveStage → String
  | .NORMAL => "Normal"
  | .SUBJECTIVE_DECLINE => "Subjective Cognitive Decline"
  | .MCI => "Mild Cognitive Impairment"
  | .MILD_DEMENTIA => "Mild Dementia"
  | .MODERATE_DEMENTIA => "Moderate Dementia"
  | .SEVERE_DEMENTIA => "Severe Dementia"

/-- Enum ParkinsonStage of fusion_service.py (Hoehn and Yahr scale). -/
inductive ParkinsonStage where
  | STAGE_0
  | STAGE_1
  | STAGE_1_5
  | STAGE_2
  | STAGE_2_5
  | STAGE_3
  | STAGE_4
  | STAGE_5
deriving DecidableEq, Repr

/-- String value of each ParkinsonStage member. -/
def ParkinsonStage.value : ParkinsonStage → String
  | .STAGE_0 => "No signs of disease"
  | .STAGE_1 => "Unilateral involvement only"
  | .STAGE_1_5 => "Unilateral and axial involvement"
  | .STAGE_2 => "Bilateral without balance impairment"
  | .STAGE_2_5 => "Mild bilateral with recovery on pull test"
  | .STAGE_3 => "Mild-moderate bilateral; postural instability"
  | .STAGE_4 => "Severe disability; able to walk/stand unassisted"
  | .STAGE_5 => "Wheelchair bound or bedridden"

/-- Enum ValidityStatus of fusion_service.py. -/
inductive ValidityStatus where
  | VALID
  | QUESTIONABLE
  | INVALID
  | INVALID_POOR_EFFORT
  | INVALID_RANDOM
deriving DecidableEq, Repr

/-- String value of each ValidityStatus member. -/
def ValidityStatus.value : ValidityStatus → String
  | .VALID => "Valid"
  | .QUESTIONABLE => "Questionable"
  | .INVALID => "Invalid - Possible Malingering"
  | .INVALID_POOR_EFFORT => "Invalid - Poor Effort"
  | .INVALID_RANDOM => "Invalid - Random Responding"

/-- The feature dictionary consumed by the service.  The Python code reads a
Dict by string key with features.get; the embedding lists every key the
module reads as an Option field (none models an absent key).  The
reaction_times key holds a list and defaults to the empty list. -/
structure FeatureSet where
  stroop_accuracy : Option ℚ := none
  stroop_interference : Option ℚ := none
  stroop_mean_rt : Option ℚ := none
  stroop_congruent_accuracy : Option ℚ := none
  stroop_incongruent_accuracy : Option ℚ := none
  nback_accuracy : Option ℚ := none
  nback_dprime : Option ℚ := none
  nback_level : Option ℚ := none
  recall_accuracy : Option ℚ := none
  delayed_recall_accuracy : Option ℚ := none
  recognition_accuracy : Option ℚ := none
  reaction_times : List ℚ := []
  simple_reaction_time : Option ℚ := none
  choice_reaction_time : Option ℚ := none
  easy_items_correct : Option ℚ := none
  hard_items_correct : Option ℚ := none
  cognitive_score : Option ℚ := none
  motor_score : Option ℚ := none
  test_completion_rate : Option ℚ := none
  response_rate : Option ℚ := none
  practice_improvement : Option ℚ := none
  story_recall_accuracy : Option ℚ := none
  vowel_duration : Option ℚ := none
  speech_rate : Option ℚ := none
  fluency_word_count : Option ℚ := none
  tapping_rate : Option ℚ := none
  tapping_regularity : Option ℚ := none
  tapping_fatigue : Option ℚ := none
  spiral_tremor : Option ℚ := none
  tremor_frequency : Option ℚ := none
  spiral_duration : Option ℚ := none
  gait_speed : Option ℚ := none
  step_regularity : Option ℚ := none
  steps : Option ℚ := none
  balance_sway : Option ℚ := none
  balance_stability : Option ℚ := none
  balance_duration : Option ℚ := none
  blink_rate : Option ℚ := none
  smile_intensity : Option ℚ := none
  smile_count : Option ℚ := none
deriving DecidableEq

/-- Python truthiness of an optional numeric feature, the model of
if features.get(key): guards (absent key or the value 0 are falsy). -/
def truthy (v : Option ℚ) : Bool :=
  match v with
  | some q => q != 0
  | none => false

/-- Dataclass ValidityIndicators of fusion_service.py. -/
structure ValidityIndicators where
  below_chance_tests : List String := []
  too_fast_responses : ℕ := 0
  too_slow_responses : ℕ := 0
  inconsistent_patterns : List String := []
  improbable_scores : List String := []
  validity_status : ValidityStatus := .VALID
  validity_confidence : ℚ := 1
  validity_concerns : List String := []
deriving DecidableEq

/-- ValidityDetector._check_below_chance (fusion_service.py lines 257-286).
The f-string interpolation of the offending percentage into the concern text
is elided; the static text of each appended string is kept. -/
def checkBelowChance (f : FeatureSet) (ind : ValidityIndicators) : ValidityIndicators :=
  let ind :=
    match f.nback_accuracy with
    | some a =>
      if a ≤ 1/2 then
        { ind with
          below_chance_tests := ind.below_chance_tests ++ ["N-Back at/below chance level"],
          validity_concerns := ind.validity_concerns ++
            ["N-Back accuracy at chance level - suggests poor effort or random responding"] }
      else ind
    | none => ind
  let ind :=
    match f.recognition_accuracy with
    | some a =>
      if a < 6/10 then
        { ind with
          below_chance_tests := ind.below_chance_tests ++ ["Recognition memory suspiciously low"],
          validity_concerns := ind.validity_concerns ++
            ["Recognition accuracy below floor - highly improbable even in dementia"] }
      else ind
    | none => ind
  match f.stroop_congruent_accuracy with
  | some a =>
    if a < 7/10 then
      { ind with
        below_chance_tests := ind.below_chance_tests ++ ["Simple Stroop performance too low"],
        validity_concerns := ind.validity_concerns ++
          ["Stroop congruent accuracy suspiciously low for easy trials"] }
    else ind
  | none => ind

/-- Sample mean of the reaction-time list (statistics.mean). -/
def rtMean (l : List ℚ) : ℚ := l.sum / l.length

/-- Sample variance of the reaction-time list, the square of
statistics.stdev (denominator length - 1). -/
def rtSampleVar (l : List ℚ) : ℚ :=
  (l.map (fun x => (x - rtMean l) ^ 2)).sum / ((l.length : ℚ) - 1)

/-- ValidityDetector._check_response_times (fusion_service.py lines 288-326).
The coefficient-of-variation test cv greater than 0.5 with
cv = stdev / mean when mean is positive (else cv = 0) is embedded in squared
form, variance greater than mean squared over 4, to stay inside the
rationals; both sides are nonnegative so the squaring is an equivalence. -/
def checkResponseTimes (f : FeatureSet) (ind : ValidityIndicators) : ValidityIndicators :=
  let l := f.reaction_times
  if 5 < l.length then
    let fast := (l.filter (fun rt => rt < 150)).length
    let slow := (l.filter (fun rt => 3000 < rt)).length
    let ind := { ind with too_fast_responses := ind.too_fast_responses + fast,
                          too_slow_responses := ind.too_slow_responses + slow }
    let ind :=
      if (l.length : ℚ) * (2/10) < ind.too_fast_responses then
        { ind with validity_concerns := ind.validity_concerns ++
            ["responses too fast - suggests anticipation/random"] }
      else ind
    let ind :=
      if (l.length : ℚ) * (3/10) < ind.too_slow_responses then
        { ind with validity_concerns := ind.validity_concerns ++
            ["responses excessively slow - suggests deliberate slowing"] }
      else ind
    if 10 < l.length then
      if 0 < rtMean l ∧ (rtMean l) ^ 2 / 4 < rtSampleVar l then
        { ind with validity_concerns := ind.validity_concerns ++
            ["Response time variability suggests inconsistent effort"] }
      else ind
    else ind
  else ind

/-- ValidityDetector._check_consistency (fusion_service.py lines 328-369). -/
def checkConsistency (f : FeatureSet) (ind : ValidityIndicators) : ValidityIndicators :=
  let ind :=
    match f.recall_accuracy, f.recognition_accuracy with
    | some rcl, some rcg =>
      if rcg + 15/100 < rcl then
        { ind with
          inconsistent_patterns := ind.inconsistent_patterns ++
            ["Recall > Recognition (impossible pattern)"],
          validity_concerns := ind.validity_concerns ++
            ["Recall exceeds Recognition - neurologically impossible"] }
      else ind
    | _, _ => ind
  let ind :=
    match f.stroop_congruent_accuracy, f.stroop_incongruent_accuracy with
    | some cong, some incong =>
      if cong + 10/100 < incong then
        { ind with
          inconsistent_patterns := ind.inconsistent_patterns ++
            ["Incongruent Stroop > Congruent (impossible)"],
          validity_concerns := ind.validity_concerns ++
            ["Better performance on hard trials than easy trials - inconsistent with genuine impairment"] }
      else ind
    | _, _ => ind
  match f.simple_reaction_time, f.choice_reaction_time with
  | some simple, some choice =>
    if choice * (3/2) < simple then
      { ind with
        inconsistent_patterns := ind.inconsistent_patterns ++
          ["Simple RT slower than Choice RT"],
        validity_concerns := ind.validity_concerns ++
          ["Simple reaction time slower than complex - suggests deliberate slowing"] }
    else ind
  | _, _ => ind

/-- ValidityDetector._check_improbability (fusion_service.py lines 371-413). -/
def checkImprobability (f : FeatureSet) (ind : ValidityIndicators) : ValidityIndicators :=
  let ind :=
    match f.easy_items_correct, f.hard_items_correct with
    | some easy, some hard =>
      if easy < 3/10 ∧ 7/10 < hard then
        { ind with
          improbable_scores := ind.improbable_scores ++
            ["Failed easy items, passed hard items"],
          validity_concerns := ind.validity_concerns ++
            ["Paradoxical pattern: Failed easy items while passing difficult ones"] }
      else ind
    | _, _ => ind
  let ind :=
    match f.cognitive_score, f.motor_score with
    | some cog, some mot =>
      if cog < 10 ∧ 95 < mot then
        { ind with
          improbable_scores := ind.improbable_scores ++
            ["Severe cognitive impairment with perfect motor"],
          validity_concerns := ind.validity_concerns ++
            ["Severe cognitive deficits with intact motor function - unusual pattern"] }
      else ind
    | _, _ => ind
  let test_scores := [f.stroop_accuracy, f.nback_accuracy,
                      f.recall_accuracy, f.tapping_regularity].filterMap id
  if 3 ≤ test_scores.length then
    if test_scores.all (fun s => s < 3/10) then
      { ind with
        improbable_scores := ind.improbable_scores ++
          ["Floor performance on all tests"],
        validity_concerns := ind.validity_concerns ++
          ["Near-floor performance across all domains - rare in genuine impairment"] }
    else ind
  else ind

/-- ValidityDetector._check_effort (fusion_service.py lines 415-438).  The
three effort indicators only append concern strings; none of the structural
counters is touched. -/
def checkEffort (f : FeatureSet) (ind : ValidityIndicators) : ValidityIndicators :=
  let completion_rate := f.test_completion_rate.getD 1
  let ind :=
    if completion_rate < 1/2 then
      { ind with validity_concerns := ind.validity_concerns ++
          ["Low test completion rate - possible poor effort"] }
    else ind
  let response_rate := f.response_rate.getD 1
  let ind :=
    if response_rate < 7/10 then
      { ind with validity_concerns := ind.validity_concerns ++
          ["Low response rate - many missed/skipped trials"] }
    else ind
  match f.practice_improvement with
  | some p =>
    if p < -(2/10) then
      { ind with validity_concerns := ind.validity_concerns ++
          ["Performance declined with practice - opposite of expected pattern"] }
    else ind
  | none => ind

/-- Local variable total_score of ValidityDetector._determine_validity
(fusion_service.py lines 447-468).  The severity-weights dictionary of the
source carries an unused effort entry; the total sums only the below-chance,
inconsistent, improbable and timing contributions, exactly as the source
does. -/
def validityTotalScore (ind : ValidityIndicators) : ℕ :=
  ind.below_chance_tests.length * 3 +
  ind.inconsistent_patterns.length * 3 +
  ind.improbable_scores.length * 2 +
  (if 10 < ind.too_fast_responses ∨ 10 < ind.too_slow_responses then 1 else 0)

/-- Local variable confidence of _determine_validity
(fusion_service.py line 471). -/
def validityConfidence (ind : ValidityIndicators) : ℚ :=
  max 0 (1 - (validityTotalScore ind : ℚ) * (1/10))

/-- ValidityDetector._determine_validity (fusion_service.py lines 440-485):
the status ladder over the weighted total score. -/
def determineValidity (ind : ValidityIndicators) : ValidityStatus × ℚ :=
  if validityTotalScore ind = 0 then (.VALID, 1)
  else if validityTotalScore ind ≤ 2 then (.QUESTIONABLE, validityConfidence ind)
  else if ind.below_chance_tests ≠ [] then (.INVALID, validityConfidence ind)
  else if ind.inconsistent_patterns ≠ [] then (.INVALID, validityConfidence ind)
  else if 5 ≤ validityTotalScore ind then (.INVALID_POOR_EFFORT, validityConfidence ind)
  else (.QUESTIONABLE, validityConfidence ind)

/-- Checks 1-4 of ValidityDetector.assess_validity, in source order. -/
def structuralChecks (f : FeatureSet) : ValidityIndicators :=
  checkImprobability f (checkConsistency f (checkResponseTimes f (checkBelowChance f {})))

/-- ValidityDetector.assess_validity (fusion_service.py lines 223-255). -/
def assessValidity (f : FeatureSet) : ValidityIndicators :=
  let ind := checkEffort f (structuralChecks f)
  let v := determineValidity ind
  { ind with validity_status := v.1, validity_confidence := v.2 }

/-- FusionService._get_severity (fusion_service.py lines 1019-1029). -/
def getSeverity (risk : ℚ) : String :=
  if risk < 20 then "low"
  else if risk < 40 then "mild"
  else if risk < 60 then "moderate"
  else if risk < 80 then "high"
  else "severe"

/-- FusionService._get_stage_from_risk (fusion_service.py lines 1031-1041). -/
def getStageFromRisk (risk : ℚ) : String :=
  if risk < 15 then "Normal"
  else if risk < 30 then "Minimal"
  else if risk < 50 then "Mild"
  else if risk < 70 then "Moderate"
  else "Severe"

/-- FusionService._get_ad_stage_from_risk (fusion_service.py lines 1043-1055). -/
def getAdStageFromRisk (risk : ℚ) : String :=
  if risk < 10 then CognitiveStage.NORMAL.value
  else if risk < 25 then CognitiveStage.SUBJECTIVE_DECLINE.value
  else if risk < 40 then CognitiveStage.MCI.value
  else if risk < 60 then CognitiveStage.MILD_DEMENTIA.value
  else if risk < 80 then CognitiveStage.MODERATE_DEMENTIA.value
  else CognitiveStage.SEVERE_DEMENTIA.value

/-- FusionService._get_pd_stage_from_risk (fusion_service.py lines 1057-1069). -/
def getPdStageFromRisk (risk : ℚ) : String :=
  if risk < 10 then ParkinsonStage.STAGE_0.value
  else if risk < 25 then ParkinsonStage.STAGE_1.value
  else if risk < 40 then ParkinsonStage.STAGE_2.value
  else if risk < 60 then ParkinsonStage.STAGE_3.value
  else if risk < 80 then ParkinsonStage.STAGE_4.value
  else ParkinsonStage.STAGE_5.value

/-- FusionService._interpret_cognitive (fusion_service.py lines 1071-1079);
the unused domains parameter of the source is dropped. -/
def interpretCognitive (moca : ℚ) : String :=
  if 26 ≤ moca then
    "Cognitive function within normal limits. No significant concerns identified."
  else if 22 ≤ moca then
    "Performance suggests possible Mild Cognitive Impairment (MCI). Recommend follow-up neuropsychological evaluation."
  else if 17 ≤ moca then
    "Performance indicates likely cognitive impairment. Clinical evaluation recommended."
  else
    "Significant cognitive impairment detected. Urgent clinical evaluation strongly recommended."

/-- FusionService._get_cognitive_recommendations (fusion_service.py lines
1081-1096); the risk parameter is kept although the source never reads it. -/
def getCognitiveRecommendations (stage : CognitiveStage) (risk : ℚ) : List String :=
  let _ := risk
  if stage = CognitiveStage.NORMAL then
    ["Continue regular cognitive health monitoring",
     "Maintain physical and mental activities"]
  else if stage = CognitiveStage.MCI then
    ["Schedule comprehensive neuropsychological evaluation",
     "Consider lifestyle modifications (exercise, diet, sleep)",
     "Monitor for progression - repeat testing in 6-12 months"]
  else
    ["Urgent consultation with neurologist recommended",
     "Comprehensive dementia workup advised",
     "Consider caregiver support resources"]

/-- Attention points of the Stroop accuracy ladder
(fusion_service.py lines 580-588). -/
def cogStroopAttentionPts (acc : ℚ) : ℕ :=
  if 95/100 ≤ acc then 3
  else if 85/100 ≤ acc then 2
  else if 7/10 ≤ acc then 1
  else 0

/-- Executive-function points of the Stroop interference ladder
(fusion_service.py lines 590-599). -/
def cogStroopExecPts (interference : ℚ) : ℕ :=
  if interference ≤ 20 then 3
  else if interference ≤ 30 then 2
  else if interference ≤ 40 then 1
  else 0

/-- Processing-speed points from the Stroop mean reaction time
(fusion_service.py lines 601-605). -/
def cogStroopSpeedPts (rt : ℚ) : ℕ :=
  if 0 < rt ∧ rt < 800 then 2
  else if rt < 1200 then 1
  else 0

/-- Working-memory points of the N-Back accuracy ladder
(fusion_service.py lines 612-624). -/
def cogNbackWmPts (acc : ℚ) : ℕ :=
  if 8/10 ≤ acc then 3
  else if 65/100 ≤ acc then 2
  else if 1/2 ≤ acc then 1
  else 0

/-- Attention points contributed by the N-Back ladder
(fusion_service.py lines 614-619). -/
def cogNbackAttnPts (acc : ℚ) : ℕ :=
  if 8/10 ≤ acc then 2
  else if 65/100 ≤ acc then 1
  else 0

/-- Immediate-recall points (fusion_service.py lines 636-646). -/
def cogRecallImmPts (acc : ℚ) : ℕ :=
  if 7/10 ≤ acc then 5
  else if 6/10 ≤ acc then 4
  else if 1/2 ≤ acc then 2
  else 1

/-- Delayed-recall points (fusion_service.py lines 649-658). -/
def cogDelayedPts (acc : ℚ) : ℕ :=
  if 7/10 ≤ acc then 5
  else if 55/100 ≤ acc then 3
  else if 4/10 ≤ acc then 1
  else 0

/-- Recognition bonus point (fusion_service.py lines 661-663). -/
def cogRecognitionBonus (acc : ℚ) : ℕ :=
  if 9/10 ≤ acc then 1 else 0

/-- Earned points of the attention_concentration domain (budget 6). -/
def cogAttention (f : FeatureSet) : ℕ :=
  (if 0 < f.stroop_accuracy.getD 0 then cogStroopAttentionPts (f.stroop_accuracy.getD 0) else 0) +
  (if 0 < f.nback_accuracy.getD 0 then cogNbackAttnPts (f.nback_accuracy.getD 0) else 0)

/-- Earned points of the executive_function domain (budget 5); the source
reads stroop_interference with dictionary default 100. -/
def cogExecutive (f : FeatureSet) : ℕ :=
  if 0 < f.stroop_accuracy.getD 0 then cogStroopExecPts (f.stroop_interference.getD 100) else 0

/-- Earned points of the processing_speed domain (budget 3). -/
def cogProcessingSpeed (f : FeatureSet) : ℕ :=
  if 0 < f.stroop_accuracy.getD 0 then cogStroopSpeedPts (f.stroop_mean_rt.getD 0) else 0

/-- Earned points of the working_memory domain (budget 4), ladder points
plus the d-prime sensitivity bonus. -/
def cogWorkingMemory (f : FeatureSet) : ℕ :=
  if 0 < f.nback_accuracy.getD 0 then
    cogNbackWmPts (f.nback_accuracy.getD 0) +
    (if 2 ≤ f.nback_dprime.getD 0 then 1 else 0)
  else 0

/-- Earned points of the memory_immediate domain (budget 5), recall points
plus the recognition bonus; the source lets the bonus push the earned score
up to 6, one above the domain budget. -/
def cogMemImmediate (f : FeatureSet) : ℕ :=
  (if 0 < f.recall_accuracy.getD 0 then cogRecallImmPts (f.recall_accuracy.getD 0) else 0) +
  (if 0 < f.recognition_accuracy.getD 0 then cogRecognitionBonus (f.recognition_accuracy.getD 0) else 0)

/-- Earned points of the memory_delayed domain (budget 5). -/
def cogMemDelayed (f : FeatureSet) : ℕ :=
  if 0 < f.delayed_recall_accuracy.getD 0 then cogDelayedPts (f.delayed_recall_accuracy.getD 0) else 0

/-- Earned points of the language domain (budget 3): no scoring path of
_assess_cognitive ever touches this domain, so it is identically zero. -/
def cogLanguage (f : FeatureSet) : ℕ :=
  let _ := f
  0

/-- Sum of earned domain points (fusion_service.py line 670). -/
def cogTotalEarned (f : FeatureSet) : ℕ :=
  cogAttention f + cogExecutive f + cogMemImmediate f + cogMemDelayed f +
  cogWorkingMemory f + cogProcessingSpeed f + cogLanguage f

/-- Sum of the domain budgets (fusion_service.py line 671). -/
def cogTotalPossible : ℕ := 6 + 5 + 5 + 5 + 4 + 3 + 3

/-- MoCA-equivalent 0-30 composite (fusion_service.py line 672). -/
def cogMoca (f : FeatureSet) : ℚ :=
  if 0 < cogTotalPossible then ((cogTotalEarned f : ℚ) / cogTotalPossible) * 30 else 15

/-- Stage banding of the MoCA equivalent (fusion_service.py lines 680-693). -/
def cogStage (moca : ℚ) : CognitiveStage :=
  if 26 ≤ moca then .NORMAL
  else if 22 ≤ moca then .MCI
  else if 17 ≤ moca then .MILD_DEMENTIA
  else if 10 ≤ moca then .MODERATE_DEMENTIA
  else .SEVERE_DEMENTIA

/-- AD-risk value of the stage ladder, before clamping
(fusion_service.py lines 680-694). -/
def cogAdRiskRaw (moca : ℚ) : ℚ :=
  if 26 ≤ moca then max 0 ((30 - moca) * (3/2))
  else if 22 ≤ moca then 15 + (26 - moca) * 5
  else if 17 ≤ moca then 35 + (22 - moca) * 5
  else if 10 ≤ moca then 60 + (17 - moca) * 3
  else 80 + (10 - moca) * 2

/-- Clinical notes of _assess_cognitive in source emission order
(Stroop accuracy, Stroop interference, N-Back, immediate recall, delayed
recall, recognition); numeric interpolation into the strings is elided. -/
def cogNotes (f : FeatureSet) : List String :=
  let sa := f.stroop_accuracy.getD 0
  let si := f.stroop_interference.getD 100
  let na := f.nback_accuracy.getD 0
  let ra := f.recall_accuracy.getD 0
  let da := f.delayed_recall_accuracy.getD 0
  let ga := f.recognition_accuracy.getD 0
  (if 0 < sa ∧ sa < 7/10 then
    ["Low Stroop accuracy suggests attention deficits"] else []) ++
  (if 0 < sa ∧ 40 < si then
    ["Elevated Stroop interference indicates executive dysfunction"] else []) ++
  (if 0 < na ∧ 1/2 ≤ na ∧ na < 65/100 then
    ["Working memory below normal"] else []) ++
  (if 0 < na ∧ na < 1/2 then
    ["Significant working memory impairment"] else []) ++
  (if 0 < ra ∧ 1/2 ≤ ra ∧ ra < 6/10 then
    ["Immediate recall in MCI range"] else []) ++
  (if 0 < ra ∧ ra < 1/2 then
    ["Poor immediate recall - memory encoding concern"] else []) ++
  (if 0 < da ∧ 4/10 ≤ da ∧ da < 55/100 then
    ["Delayed recall impaired - hallmark early AD sign"] else []) ++
  (if 0 < da ∧ da < 4/10 then
    ["Severely impaired delayed recall - significant memory consolidation deficit"] else []) ++
  (if 0 < ga ∧ ga < 6/10 then
    ["Recognition memory unusually low - verify data validity"] else [])

/-- Per-category assessment record.  Display-only dictionary entries of the
source (formatted domain-score strings, metric blocks, the disclaimer) are
elided; category-specific fields carry neutral defaults for the categories
that do not emit them. -/
structure AssessResult where
  ad_risk : ℚ := 0
  pd_risk : ℚ := 0
  category_score : ℚ := 0
  stage : String := ""
  severity : String := ""
  ad_stage : String := ""
  pd_stage : String := ""
  clinical_notes : List String := []
  moca_equivalent : ℚ := 0
  adas_cog_equivalent : ℚ := 0
  interpretation : String := ""
  recommendations : List String := []
  updrs_subscores : List (String × ℕ) := []
  updrs_motor_total : ℕ := 0
  hoehn_yahr : Option String := none
deriving DecidableEq

/-- Clamped AD risk of _assess_cognitive (fusion_service.py line 696). -/
def cogAdRisk (f : FeatureSet) : ℚ := min 100 (max 0 (cogAdRiskRaw (cogMoca f)))

/-- Category health score of _assess_cognitive (fusion_service.py line 702). -/
def cogCategoryScoreRaw (f : FeatureSet) : ℚ := (cogMoca f / 30) * 100

/-- FusionService._assess_cognitive (fusion_service.py lines 550-728). -/
def assessCognitive (f : FeatureSet) : AssessResult :=
  let moca := cogMoca f
  let adas := 70 - (moca / 30 * 70)
  let stage := cogStage moca
  let ad_risk := cogAdRisk f
  let pd_risk := ad_risk * (25/100)
  let category_score := cogCategoryScoreRaw f
  let notes := cogNotes f
  { ad_risk := round2 ad_risk
    pd_risk := round2 pd_risk
    category_score := round2 category_score
    stage := stage.value
    severity := getSeverity ad_risk
    ad_stage := stage.value
    pd_stage := getPdStageFromRisk pd_risk
    moca_equivalent := round1 moca
    adas_cog_equivalent := round1 adas
    interpretation := interpretCognitive moca
    clinical_notes := if notes = [] then ["Cognitive performance within normal limits"] else notes
    recommendations := getCognitiveRecommendations stage ad_risk }

/-- Story-recall points (fusion_service.py lines 741-749). -/
def speechStoryPts (acc : ℚ) : ℕ :=
  if 8/10 ≤ acc then 5
  else if 6/10 ≤ acc then 3
  else if 4/10 ≤ acc then 1
  else 0

/-- Sustained-vowel points (fusion_service.py lines 753-761). -/
def speechVowelPts (dur : ℚ) : ℕ :=
  if 15 ≤ dur then 5
  else if 10 ≤ dur then 3
  else if 5 ≤ dur then 1
  else 0

/-- Speech-rate points, awarded to both scores when the rate lies in the
normal band (fusion_service.py lines 765-770). -/
def speechRatePts (rate : ℚ) : ℕ :=
  if 120 ≤ rate ∧ rate ≤ 180 then 2 else 0

/-- Category-fluency points (fusion_service.py lines 774-782). -/
def speechFluencyPts (wc : ℚ) : ℕ :=
  if 18 ≤ wc then 3
  else if 14 ≤ wc then 2
  else if 10 ≤ wc then 1
  else 0

/-- AD-side point total of _assess_speech (budget max_ad = 10). -/
def speechAdScore (f : FeatureSet) : ℕ :=
  (if 0 < f.story_recall_accuracy.getD 0 then speechStoryPts (f.story_recall_accuracy.getD 0) else 0) +
  (if 0 < f.speech_rate.getD 0 then speechRatePts (f.speech_rate.getD 0) else 0) +
  (if 0 < f.fluency_word_count.getD 0 then speechFluencyPts (f.fluency_word_count.getD 0) else 0)

/-- PD-side point total of _assess_speech (budget max_pd = 10). -/
def speechPdScore (f : FeatureSet) : ℕ :=
  (if 0 < f.vowel_duration.getD 0 then speechVowelPts (f.vowel_duration.getD 0) else 0) +
  (if 0 < f.speech_rate.getD 0 then speechRatePts (f.speech_rate.getD 0) else 0)

/-- Category score of _assess_speech (fusion_service.py line 784), with the
max_ad = max_pd = 10 budgets written inline. -/
def speechCategoryScoreRaw (f : FeatureSet) : ℚ :=
  (((speechAdScore f : ℚ) + (speechPdScore f : ℚ)) / (10 + 10)) * 100

/-- AD risk of _assess_speech (fusion_service.py line 785). -/
def speechAdRiskRaw (f : FeatureSet) : ℚ := (1 - (speechAdScore f : ℚ) / 10) * 25

/-- PD risk of _assess_speech (fusion_service.py line 786). -/
def speechPdRiskRaw (f : FeatureSet) : ℚ := (1 - (speechPdScore f : ℚ) / 10) * 25

/-- FusionService._assess_speech (fusion_service.py lines 730-803). -/
def assessSpeech (f : FeatureSet) : AssessResult :=
  let sa := f.story_recall_accuracy.getD 0
  let vd := f.vowel_duration.getD 0
  let sr := f.speech_rate.getD 0
  let wc := f.fluency_word_count.getD 0
  let notes :=
    (if 0 < sa ∧ sa < 4/10 then ["Poor story recall - verbal memory concern"] else []) ++
    (if 0 < vd ∧ vd < 5 then ["Reduced phonation time - respiratory/laryngeal concern"] else []) ++
    (if 0 < sr ∧ sr < 100 then ["Slow speech rate - possible motor speech involvement"] else []) ++
    (if 0 < wc ∧ wc < 10 then ["Reduced verbal fluency - semantic memory concern"] else [])
  let category_score : ℚ := speechCategoryScoreRaw f
  let ad_risk : ℚ := speechAdRiskRaw f
  let pd_risk : ℚ := speechPdRiskRaw f
  { ad_risk := round2 ad_risk
    pd_risk := round2 pd_risk
    category_score := round2 category_score
    stage := getStageFromRisk (max ad_risk pd_risk)
    severity := getSeverity (max ad_risk pd_risk)
    ad_stage := getAdStageFromRisk ad_risk
    pd_stage := getPdStageFromRisk pd_risk
    clinical_notes := if notes = [] then ["Speech parameters within normal limits"] else notes }

/-- Sum of the values of an UPDRS sub-score dictionary. -/
def updrsTotal (u : List (String × ℕ)) : ℕ := (u.map Prod.snd).sum

/-- Dictionary get with default 0 on an UPDRS sub-score dictionary. -/
def updrsGet (u : List (String × ℕ)) (k : String) : ℕ :=
  (List.lookup k u).getD 0

/-- FusionService._calculate_hoehn_yahr (fusion_service.py lines 1001-1017).
The unused features parameter of the source is dropped.  Note the branch
order of the source: the postural at-least-3 branch sits after the postural
at-least-2 branch. -/
def calculateHoehnYahr (updrs : List (String × ℕ)) : ParkinsonStage :=
  let total := updrsTotal updrs
  let postural := updrsGet updrs "postural_stability"
  if total = 0 then .STAGE_0
  else if total ≤ 4 ∧ postural ≤ 1 then .STAGE_1
  else if total ≤ 8 ∧ postural ≤ 1 then .STAGE_2
  else if 2 ≤ postural then .STAGE_3
  else if 3 ≤ postural then .STAGE_4
  else .STAGE_2

/-- Bradykinesia UPDRS sub-score of the finger-tapping block
(fusion_service.py lines 811-829); none models the skipped entry. -/
def motorBradykinesia (f : FeatureSet) : Option ℕ :=
  let rate := f.tapping_rate.getD 0
  let reg := f.tapping_regularity.getD 0
  let fat := f.tapping_fatigue.getD 0
  if 0 < rate then
    some (if 4 ≤ rate then
            (if 9/10 ≤ reg ∧ fat ≤ 1/10 then 0 else if 8/10 ≤ reg then 1 else 2)
          else if 3 ≤ rate then
            (if 7/10 ≤ reg then 2 else 3)
          else
            (if 2 ≤ rate then 3 else 4))
  else none

/-- Tremor UPDRS sub-score of the spiral-drawing block
(fusion_service.py lines 832-847). -/
def motorTremor (f : FeatureSet) : Option ℕ :=
  if truthy f.spiral_duration then
    let st := f.spiral_tremor.getD 0
    some (if st ≤ 1/10 then 0
          else if st ≤ 25/100 then 1
          else if st ≤ 1/2 then 2
          else if st ≤ 75/100 then 3
          else 4)
  else none

/-- UPDRS dictionary assembled by _assess_motor, in insertion order. -/
def motorUpdrs (f : FeatureSet) : List (String × ℕ) :=
  (match motorBradykinesia f with
   | some v => [("bradykinesia", v)]
   | none => []) ++
  (match motorTremor f with
   | some v => [("tremor", v)]
   | none => [])

/-- Denominator of the motor score normalisation (fusion_service.py line
855): four points per recorded UPDRS item, or 8 when the dictionary is
empty. -/
def motorMaxScore (f : FeatureSet) : ℕ :=
  if motorUpdrs f ≠ [] then (motorUpdrs f).length * 4 else 8

/-- Motor health score (fusion_service.py line 857). -/
def motorHealthRaw (f : FeatureSet) : ℚ :=
  if 0 < motorMaxScore f then
    (((motorMaxScore f : ℚ) - (updrsTotal (motorUpdrs f) : ℚ)) / (motorMaxScore f : ℚ)) * 100
  else 50

/-- Motor PD risk (fusion_service.py line 858). -/
def motorPdRaw (f : FeatureSet) : ℚ :=
  if 0 < motorMaxScore f then
    ((updrsTotal (motorUpdrs f) : ℚ) / (motorMaxScore f : ℚ)) * 60
  else 0

/-- FusionService._assess_motor (fusion_service.py lines 805-880). -/
def assessMotor (f : FeatureSet) : AssessResult :=
  let rate := f.tapping_rate.getD 0
  let st := f.spiral_tremor.getD 0
  let tf := f.tremor_frequency.getD 0
  let notes :=
    (if 0 < rate ∧ 3 ≤ rate ∧ rate < 4 then
      ["Reduced tapping rate - bradykinesia indicator"] else []) ++
    (if 0 < rate ∧ rate < 3 then
      ["Significant bradykinesia detected"] else []) ++
    (if truthy f.spiral_duration ∧ 1/2 < st ∧ st ≤ 75/100 then
      ["Moderate tremor detected in drawing"] else []) ++
    (if truthy f.spiral_duration ∧ 75/100 < st then
      ["Severe tremor present"] else []) ++
    (if truthy f.spiral_duration ∧ 4 ≤ tf ∧ tf ≤ 6 then
      ["Tremor frequency in Parkinsonian range (4-6 Hz)"] else [])
  let updrs := motorUpdrs f
  let total := updrsTotal updrs
  let motor_health : ℚ := motorHealthRaw f
  let pd_risk : ℚ := motorPdRaw f
  let ad_risk : ℚ := pd_risk * (1/10)
  let hy := calculateHoehnYahr updrs
  { ad_risk := round2 ad_risk
    pd_risk := round2 pd_risk
    category_score := round2 motor_health
    stage := hy.value
    severity := getSeverity pd_risk
    ad_stage := getAdStageFromRisk ad_risk
    pd_stage := hy.value
    hoehn_yahr := some hy.value
    updrs_subscores := updrs
    updrs_motor_total := total
    clinical_notes := if notes = [] then ["Motor function within normal limits"] else notes }

/-- Gait UPDRS sub-score of the walking block
(fusion_service.py lines 889-902). -/
def gaitWalkScore (f : FeatureSet) : Option ℕ :=
  if truthy f.steps then
    let speed := f.gait_speed.getD 0
    let reg := f.step_regularity.getD 0
    some (if 1 ≤ speed ∧ 9/10 ≤ reg then 0
          else if 8/10 ≤ speed then 1
          else if 6/10 ≤ speed then 2
          else 3)
  else none

/-- Postural-stability UPDRS sub-score of the balance block
(fusion_service.py lines 905-917). -/
def gaitPosturalScore (f : FeatureSet) : Option ℕ :=
  if truthy f.balance_duration then
    let sway := f.balance_sway.getD 0
    let stab := f.balance_stability.getD 0
    some (if sway ≤ 3/10 ∧ 9/10 ≤ stab then 0
          else if sway ≤ 4/10 then 1
          else if sway ≤ 6/10 then 2
          else 3)
  else none

/-- UPDRS dictionary assembled by _assess_gait, in insertion order. -/
def gaitUpdrs (f : FeatureSet) : List (String × ℕ) :=
  (match gaitWalkScore f with
   | some v => [("gait", v)]
   | none => []) ++
  (match gaitPosturalScore f with
   | some v => [("postural_stability", v)]
   | none => [])

/-- Denominator of the gait score normalisation (fusion_service.py line
920). -/
def gaitMaxScore (f : FeatureSet) : ℕ :=
  if gaitUpdrs f ≠ [] then (gaitUpdrs f).length * 4 else 8

/-- Gait health score (fusion_service.py line 922). -/
def gaitHealthRaw (f : FeatureSet) : ℚ :=
  if 0 < gaitMaxScore f then
    (((gaitMaxScore f : ℚ) - (updrsTotal (gaitUpdrs f) : ℚ)) / (gaitMaxScore f : ℚ)) * 100
  else 50

/-- Gait PD risk (fusion_service.py line 923). -/
def gaitPdRaw (f : FeatureSet) : ℚ :=
  if 0 < gaitMaxScore f then
    ((updrsTotal (gaitUpdrs f) : ℚ) / (gaitMaxScore f : ℚ)) * 40
  else 0

/-- FusionService._assess_gait (fusion_service.py lines 882-943). -/
def assessGait (f : FeatureSet) : AssessResult :=
  let speed := f.gait_speed.getD 0
  let sway := f.balance_sway.getD 0
  let stab := f.balance_stability.getD 0
  let notes :=
    (if truthy f.steps ∧ ¬(1 ≤ speed ∧ 9/10 ≤ f.step_regularity.getD 0) ∧
        ¬(8/10 ≤ speed) ∧ 6/10 ≤ speed then
      ["Slow gait speed"] else []) ++
    (if truthy f.steps ∧ ¬(1 ≤ speed ∧ 9/10 ≤ f.step_regularity.getD 0) ∧
        ¬(8/10 ≤ speed) ∧ ¬(6/10 ≤ speed) then
      ["Significantly reduced gait speed"] else []) ++
    (if truthy f.balance_duration ∧ ¬(sway ≤ 3/10 ∧ 9/10 ≤ stab) ∧
        ¬(sway ≤ 4/10) ∧ ¬(sway ≤ 6/10) then
      ["Postural instability - fall risk"] else [])
  let updrs := gaitUpdrs f
  let gait_health : ℚ := gaitHealthRaw f
  let pd_risk : ℚ := gaitPdRaw f
  let ad_risk : ℚ := pd_risk * (15/100)
  let hy := calculateHoehnYahr updrs
  { ad_risk := round2 ad_risk
    pd_risk := round2 pd_risk
    category_score := round2 gait_health
    stage := hy.value
    severity := getSeverity pd_risk
    ad_stage := getAdStageFromRisk ad_risk
    pd_stage := hy.value
    updrs_subscores := updrs
    clinical_notes := if notes = [] then ["Gait and balance within normal limits"] else notes }

/-- Blink UPDRS sub-score (fusion_service.py lines 954-963). -/
def facialBlinkScore (f : FeatureSet) : Option ℕ :=
  let blink := f.blink_rate.getD 0
  if 0 < blink then
    some (if 15 ≤ blink ∧ blink ≤ 20 then 0
          else if 12 ≤ blink then 1
          else if 10 ≤ blink then 2
          else 3)
  else none

/-- Facial-expression UPDRS sub-score (fusion_service.py lines 965-974). -/
def facialExpressionScore (f : FeatureSet) : Option ℕ :=
  if truthy f.smile_count then
    let si := f.smile_intensity.getD 0
    some (if 8/10 ≤ si then 0
          else if 6/10 ≤ si then 1
          else if 4/10 ≤ si then 2
          else 3)
  else none

/-- UPDRS dictionary assembled by _assess_facial, in insertion order. -/
def facialUpdrs (f : FeatureSet) : List (String × ℕ) :=
  (match facialBlinkScore f with
   | some v => [("blink", v)]
   | none => []) ++
  (match facialExpressionScore f with
   | some v => [("facial_expression", v)]
   | none => [])

/-- Denominator of the facial score normalisation (fusion_service.py line
977). -/
def facialMaxScore (f : FeatureSet) : ℕ :=
  if facialUpdrs f ≠ [] then (facialUpdrs f).length * 4 else 8

/-- Facial health score (fusion_service.py line 979). -/
def facialHealthRaw (f : FeatureSet) : ℚ :=
  if 0 < facialMaxScore f then
    (((facialMaxScore f : ℚ) - (updrsTotal (facialUpdrs f) : ℚ)) / (facialMaxScore f : ℚ)) * 100
  else 50

/-- Facial PD risk (fusion_service.py line 980). -/
def facialPdRaw (f : FeatureSet) : ℚ :=
  if 0 < facialMaxScore f then
    ((updrsTotal (facialUpdrs f) : ℚ) / (facialMaxScore f : ℚ)) * 20
  else 0

/-- FusionService._assess_facial (fusion_service.py lines 945-997). -/
def assessFacial (f : FeatureSet) : AssessResult :=
  let blink := f.blink_rate.getD 0
  let si := f.smile_intensity.getD 0
  let notes :=
    (if 0 < blink ∧ ¬(15 ≤ blink ∧ blink ≤ 20) ∧ ¬(12 ≤ blink) ∧ ¬(10 ≤ blink) then
      ["Reduced blink rate - hypomimia indicator"] else []) ++
    (if truthy f.smile_count ∧ ¬(8/10 ≤ si) ∧ ¬(6/10 ≤ si) ∧ ¬(4/10 ≤ si) then
      ["Reduced facial expressivity - masked facies"] else [])
  let updrs := facialUpdrs f
  let facial_health : ℚ := facialHealthRaw f
  let pd_risk : ℚ := facialPdRaw f
  let ad_risk : ℚ := pd_risk * (5/100)
  { ad_risk := round2 ad_risk
    pd_risk := round2 pd_risk
    category_score := round2 facial_health
    stage := getStageFromRisk pd_risk
    severity := getSeverity pd_risk
    ad_stage := getAdStageFromRisk ad_risk
    pd_stage := getPdStageFromRisk pd_risk
    updrs_subscores := updrs
    clinical_notes := if notes = [] then ["Facial expression within normal range"] else notes }

/-- FusionService._default_assessment (fusion_service.py lines 1098-1108). -/
def defaultAssessment : AssessResult :=
  { ad_risk := 0
    pd_risk := 0
    category_score := 50
    stage := "Unknown"
    severity := "low"
    ad_stage := CognitiveStage.NORMAL.value
    pd_stage := ParkinsonStage.STAGE_0.value
    clinical_notes := ["Insufficient data for assessment"] }

/-- Category dispatch of FusionService.calculate_risk_scores
(fusion_service.py lines 517-528). -/
def dispatchAssess (category : String) (f : FeatureSet) : AssessResult :=
  if category = "cognitive" then assessCognitive f
  else if category = "speech" then assessSpeech f
  else if category = "motor" then assessMotor f
  else if category = "gait" then assessGait f
  else if category = "facial" then assessFacial f
  else defaultAssessment

/-- Validity block attached to every category result
(fusion_service.py lines 531-536). -/
structure ValidityInfo where
  status : ValidityStatus
  confidence : ℚ
  concerns : List String
  is_valid : Bool
deriving DecidableEq

/-- Full result of FusionService.calculate_risk_scores. -/
structure RiskResult extends AssessResult where
  validity : ValidityInfo
  interpretation_caveat : Option String := none
deriving DecidableEq

/-- FusionService.calculate_risk_scores (fusion_service.py lines 505-548):
validity assessment, category dispatch, validity attachment, and the
caveat/flagged-note post-processing when the status is not Valid. -/
def calculateRiskScores (category : String) (f : FeatureSet) : RiskResult :=
  let validity := assessValidity f
  let results := dispatchAssess category f
  let results :=
    if validity.validity_status ≠ ValidityStatus.VALID then
      { results with clinical_notes :=
          ("VALIDITY CONCERN: " ++ validity.validity_status.value) :: results.clinical_notes }
    else results
  { toAssessResult := results
    validity :=
      { status := validity.validity_status
        confidence := round2 validity.validity_confidence
        concerns := validity.validity_concerns
        is_valid := validity.validity_status = ValidityStatus.VALID }
    interpretation_caveat :=
      if validity.validity_status ≠ ValidityStatus.VALID then
        some ("Results should be interpreted with caution due to validity concerns. " ++
              "Consider re-testing under standardized conditions.")
      else none }

/-- Primary-concern label of the composite result; the source returns the
disease names as strings (with possessive apostrophes), represented here by
a closed inductive type. -/
inductive PrimaryConcern where
  | alzheimers
  | parkinsons
  | mixedUndetermined
deriving DecidableEq, Repr

/-- CompositeFusionService.WEIGHTS_AD (fusion_service.py lines 1126-1132);
the final branch is the dictionary-get default 0.1 used at the lookup site. -/
def WEIGHTS_AD (category : String) : ℚ :=
  if category = "cognitive" then 45/100
  else if category = "speech" then 20/100
  else if category = "gait" then 20/100
  else if category = "motor" then 5/100
  else if category = "facial" then 10/100
  else 10/100

/-- CompositeFusionService.WEIGHTS_PD (fusion_service.py lines 1134-1140);
the final branch is the dictionary-get default 0.1 used at the lookup site. -/
def WEIGHTS_PD (category : String) : ℚ :=
  if category = "motor" then 35/100
  else if category = "gait" then 25/100
  else if category = "speech" then 15/100
  else if category = "cognitive" then 15/100
  else if category = "facial" then 10/100
  else 10/100

/-- Weighted AD numerator accumulated over the supplied categories. -/
def adWeighted (rs : List (String × RiskResult)) : ℚ :=
  (rs.map (fun p => p.2.ad_risk * WEIGHTS_AD p.1)).sum

/-- Weighted PD numerator accumulated over the supplied categories. -/
def pdWeighted (rs : List (String × RiskResult)) : ℚ :=
  (rs.map (fun p => p.2.pd_risk * WEIGHTS_PD p.1)).sum

/-- AD weight-normalisation denominator. -/
def totalAdWeight (rs : List (String × RiskResult)) : ℚ :=
  (rs.map (fun p => WEIGHTS_AD p.1)).sum

/-- PD weight-normalisation denominator. -/
def totalPdWeight (rs : List (String × RiskResult)) : ℚ :=
  (rs.map (fun p => WEIGHTS_PD p.1)).sum

/-- Normalised AD composite (fusion_service.py line 1168), before the
round-to-two-decimals display step. -/
def compositeAdRaw (rs : List (String × RiskResult)) : ℚ :=
  if 0 < totalAdWeight rs then adWeighted rs / totalAdWeight rs else 0

/-- Normalised PD composite (fusion_service.py line 1169), before the
round-to-two-decimals display step. -/
def compositePdRaw (rs : List (String × RiskResult)) : ℚ :=
  if 0 < totalPdWeight rs then pdWeighted rs / totalPdWeight rs else 0

/-- Validity concern list accumulated by calculate_composite
(fusion_service.py lines 1152-1155). -/
def validityConcernList (rs : List (String × RiskResult)) : List String :=
  rs.filterMap (fun p =>
    if p.2.validity.is_valid then none
    else some (p.1 ++ ": " ++ p.2.validity.status.value))

/-- CompositeFusionService._get_recommendation
(fusion_service.py lines 1196-1211). -/
def getRecommendation (ad pd : ℚ) (validity_concerns : List String) : String :=
  if validity_concerns ≠ [] then
    "Results may be unreliable due to validity concerns. Consider re-testing under standardized conditions."
  else
    let max_risk := max ad pd
    if max_risk < 15 then
      "Results within normal limits. Continue regular health monitoring."
    else if max_risk < 30 then
      "Minor deviations noted. Consider follow-up assessment in 6-12 months."
    else if max_risk < 50 then
      "Some concerns identified. Consultation with a neurologist is recommended."
    else if max_risk < 70 then
      "Moderate risk indicators present. Clinical evaluation is strongly recommended."
    else
      "Significant risk indicators detected. Urgent neurological evaluation is recommended."

/-- Composite result record (the constant disclaimer string is elided). -/
structure CompositeResult where
  composite_ad_risk : ℚ
  composite_pd_risk : ℚ
  primary_concern : PrimaryConcern
  overall_risk : ℚ
  categories_assessed : List String
  all_valid : Bool
  validity_concerns : List String
  recommendation : String
deriving DecidableEq

/-- CompositeFusionService.calculate_composite
(fusion_service.py lines 1142-1194). -/
def fuseComposite (rs : List (String × RiskResult)) : CompositeResult :=
  let composite_ad := compositeAdRaw rs
  let composite_pd := compositePdRaw rs
  { composite_ad_risk := round2 composite_ad
    composite_pd_risk := round2 composite_pd
    primary_concern :=
      if composite_pd + 10 < composite_ad then .alzheimers
      else if composite_ad + 10 < composite_pd then .parkinsons
      else .mixedUndetermined
    overall_risk := round2 (max composite_ad composite_pd)
    categories_assessed := rs.map Prod.fst
    all_valid := validityConcernList rs = []
    validity_concerns := validityConcernList rs
    recommendation := getRecommendation composite_ad composite_pd (validityConcernList rs) }

/-! Helper lemmas about the rounding model. -/

lemma round2_mono {a b : ℚ} (h : a ≤ b) : round2 a ≤ round2 b := by
  unfold round2
  have hr : round (a * 100) ≤ round (b * 100) := by
    rw [round_eq, round_eq]
    exact Int.floor_mono (by linarith)
  have hc : ((round (a * 100) : ℤ) : ℚ) ≤ ((round (b * 100) : ℤ) : ℚ) := by exact_mod_cast hr
  linarith

lemma round2_zero : round2 0 = 0 := by
  simp [round2]

lemma round2_one : round2 (1 : ℚ) = 1 := by
  norm_num [round2, round_eq]

lemma round2_hundred : round2 (100 : ℚ) = 100 := by
  norm_num [round2, round_eq]

lemma round2_nonneg {x : ℚ} (h : 0 ≤ x) : 0 ≤ round2 x := by
  have := round2_mono h
  rw [round2_zero] at this
  exact this

lemma round2_le_one {x : ℚ} (h : x ≤ 1) : round2 x ≤ 1 := by
  have := round2_mono h
  rw [round2_one] at this
  exact this

lemma round2_le_100 {x : ℚ} (h : x ≤ 100) : round2 x ≤ 100 := by
  have := round2_mono h
  rw [round2_hundred] at this
  exact this

lemma round2_round2 (x : ℚ) : round2 (round2 x) = round2 x := by
  unfold round2
  rw [div_mul_cancel₀ _ (by norm_num : (100 : ℚ) ≠ 0), round_intCast]

/-! Concrete feature sets used by the claims. -/

/-- The empty feature dictionary. -/
def emptyFS : FeatureSet := {}

/-- Feature set of the C3 cognitive scenario. -/
def c3FS : FeatureSet :=
  { stroop_accuracy := some (97/100), nback_accuracy := some (85/100),
    recall_accuracy := some (75/100), delayed_recall_accuracy := some (72/100),
    recognition_accuracy := some (95/100) }

/-- Feature set whose only validity signal is a low completion rate. -/
def effortOnlyFS : FeatureSet := { test_completion_rate := some (3/10) }

/-- Feature set with an N-Back accuracy of exactly 0.50. -/
def nbackChanceFS : FeatureSet := { nback_accuracy := some (50/100) }

/-- Feature set with an N-Back accuracy of 0.51. -/
def nbackAboveFS : FeatureSet := { nback_accuracy := some (51/100) }

/-- Gait feature set that maximises both UPDRS gait sub-scores. -/
def c5GaitFS : FeatureSet :=
  { steps := some 1, gait_speed := some (3/10),
    balance_duration := some 1, balance_sway := some (7/10) }

/-! Spec-side definitions used to compare the code against the claimed
verdict formula (claim C1 and spec section 4.1). -/

/-- Modelled from the spec: the effort-indicator hit count named by claim C1
(low completion rate, low response rate, negative practice effect), counted
over the same feature reads as ValidityDetector._check_effort. -/
def effortHitCount (f : FeatureSet) : ℕ :=
  (if f.test_completion_rate.getD 1 < 1/2 then 1 else 0) +
  (if f.response_rate.getD 1 < 7/10 then 1 else 0) +
  (match f.practice_improvement with
   | some p => if p < -(2/10) then 1 else 0
   | none => 0)

/-- Weighted total of the structural validity hits recorded by the detector:
3 per below-chance hit, 3 per inconsistent hit, 2 per improbable hit, plus 1
when more than 10 responses were too fast or too slow. -/
def structuralWeightedTotal (f : FeatureSet) : ℕ :=
  (assessValidity f).below_chance_tests.length * 3 +
  (assessValidity f).inconsistent_patterns.length * 3 +
  (assessValidity f).improbable_scores.length * 2 +
  (if 10 < (assessValidity f).too_fast_responses ∨
      10 < (assessValidity f).too_slow_responses then 1 else 0)

/-- Modelled from the spec: the weighted total named by claim C1, which adds
1 per effort-indicator hit on top of the structural weighted total. -/
def claimC1total (f : FeatureSet) : ℕ := structuralWeightedTotal f + effortHitCount f

/-- Modelled from the spec: the status case analysis of claim C1, as a
function of the weighted total and of the recorded below-chance and
inconsistent-pattern hit lists. -/
def claimC1status (total : ℕ) (bc inc : List String) : ValidityStatus :=
  if total = 0 then .VALID
  else if 1 ≤ total ∧ total ≤ 2 then .QUESTIONABLE
  else if (bc ≠ [] ∨ inc ≠ []) ∧ 3 ≤ total then .INVALID
  else if 5 ≤ total ∧ ¬(bc ≠ [] ∨ inc ≠ []) then .INVALID_POOR_EFFORT
  else .QUESTIONABLE

/-- Modelled from the spec: the confidence formula of claim C1. -/
def claimC1confidence (total : ℕ) : ℚ := max 0 (1 - (total : ℚ) * (1/10))

lemma determineValidity_status_eq (ind : ValidityIndicators) :
    (determineValidity ind).1 =
      claimC1status (validityTotalScore ind)
        ind.below_chance_tests ind.inconsistent_patterns := by
  have hbc : (ind.below_chance_tests ≠ []) = (1 ≤ ind.below_chance_tests.length) :=
    propext ⟨fun h => List.length_pos.mpr h, fun h => List.length_pos.mp h⟩
  have hip : (ind.inconsistent_patterns ≠ []) = (1 ≤ ind.inconsistent_patterns.length) :=
    propext ⟨fun h => List.length_pos.mpr h, fun h => List.length_pos.mp h⟩
  have hle : (if 10 < ind.too_fast_responses ∨ 10 < ind.too_slow_responses
      then 1 else 0) ≤ 1 := by split_ifs <;> omega
  have hT : validityTotalScore ind =
      ind.below_chance_tests.length * 3 + ind.inconsistent_patterns.length * 3 +
      ind.improbable_scores.length * 2 +
      (if 10 < ind.too_fast_responses ∨ 10 < ind.too_slow_responses then 1 else 0) := rfl
  unfold determineValidity claimC1status
  simp only [hbc, hip]
  split_ifs <;> first | rfl | (exfalso; omega)

lemma determineValidity_conf_eq (ind : ValidityIndicators) :
    (determineValidity ind).2 = claimC1confidence (validityTotalScore ind) := by
  unfold determineValidity claimC1confidence validityConfidence
  split_ifs with h1 <;> try rfl
  rw [h1]
  norm_num

lemma checkEffort_counts (f : FeatureSet) (ind : ValidityIndicators) :
    (checkEffort f ind).below_chance_tests = ind.below_chance_tests ∧
    (checkEffort f ind).inconsistent_patterns = ind.inconsistent_patterns ∧
    (checkEffort f ind).improbable_scores = ind.improbable_scores ∧
    (checkEffort f ind).too_fast_responses = ind.too_fast_responses ∧
    (checkEffort f ind).too_slow_responses = ind.too_slow_responses := by
  unfold checkEffort
  rcases f.practice_improvement with _ | p <;> dsimp only <;> split_ifs <;>
    exact ⟨rfl, rfl, rfl, rfl, rfl⟩

lemma validityTotalScore_checkEffort (f : FeatureSet) (ind : ValidityIndicators) :
    validityTotalScore (checkEffort f ind) = validityTotalScore ind := by
  obtain ⟨h1, h2, h3, h4, h5⟩ := checkEffort_counts f ind
  unfold validityTotalScore
  rw [h1, h2, h3, h4, h5]

/-- C1, amended: the verdict and confidence are computed from the weighted
total of the structural hits (3 per below-chance, 3 per inconsistent, 2 per
improbable, 1 for a timing anomaly) by exactly the claimed case analysis,
but effort-indicator hits contribute nothing to the total. -/
theorem C1_verdict_formula (f : FeatureSet) :
    (assessValidity f).validity_status =
      claimC1status (structuralWeightedTotal f)
        (assessValidity f).below_chance_tests (assessValidity f).inconsistent_patterns ∧
    (assessValidity f).validity_confidence = claimC1confidence (structuralWeightedTotal f) := by
  obtain ⟨h1, h2, h3, h4, h5⟩ := checkEffort_counts f (structuralChecks f)
  constructor
  · show (determineValidity (checkEffort f (structuralChecks f))).1 = _
    rw [determineValidity_status_eq]
    rfl
  · show (determineValidity (checkEffort f (structuralChecks f))).2 = _
    rw [determineValidity_conf_eq]
    rfl

/-- C1, counterexample: on a feature set whose only validity signal is a low
completion rate, the claimed formula (which counts 1 per effort hit) yields
status Questionable with confidence 0.9, while the detector returns Valid
with confidence 1.0. -/
theorem C1_counterexample :
    claimC1total effortOnlyFS = 1 ∧
    claimC1status (claimC1total effortOnlyFS)
      (assessValidity effortOnlyFS).below_chance_tests
      (assessValidity effortOnlyFS).inconsistent_patterns = ValidityStatus.QUESTIONABLE ∧
    claimC1confidence (claimC1total effortOnlyFS) = 9/10 ∧
    (assessValidity effortOnlyFS).validity_status = ValidityStatus.VALID ∧
    (assessValidity effortOnlyFS).validity_confidence = 1 := by
  norm_num [claimC1total, claimC1status, claimC1confidence, effortHitCount,
    structuralWeightedTotal, effortOnlyFS, assessValidity, structuralChecks,
    checkBelowChance, checkResponseTimes, checkConsistency, checkImprobability,
    checkEffort, determineValidity, validityTotalScore, validityConfidence]

/-- C7: an N-Back accuracy of exactly 0.50 records the below-chance hit and
appends a concern, while 0.51 records nothing; the boundary comparison is
inclusive. -/
theorem C7_below_chance_boundary :
    (assessValidity nbackChanceFS).below_chance_tests = ["N-Back at/below chance level"] ∧
    (assessValidity nbackChanceFS).validity_concerns ≠ [] ∧
    (assessValidity nbackAboveFS).below_chance_tests = [] ∧
    (assessValidity nbackAboveFS).validity_concerns = [] := by
  norm_num [nbackChanceFS, nbackAboveFS, assessValidity, structuralChecks,
    checkBelowChance, checkResponseTimes, checkConsistency, checkImprobability,
    checkEffort, determineValidity, validityTotalScore, validityConfidence]

/-- Feature set with the effort features removed, used to say that two
feature sets differ only in the effort features. -/
def eraseEffort (f : FeatureSet) : FeatureSet :=
  { f with test_completion_rate := none, response_rate := none,
           practice_improvement := none }

lemma structuralChecks_eraseEffort (f : FeatureSet) :
    structuralChecks (eraseEffort f) = structuralChecks f := rfl

/-- C9: the validity status and confidence depend only on the non-effort
features; a feature set whose only issues are effort indicators is judged
Valid with confidence 1.0 even though its concern list is non-empty. -/
theorem C9_effort_noninterference (f g : FeatureSet)
    (h : eraseEffort f = eraseEffort g) :
    ((assessValidity f).validity_status = (assessValidity g).validity_status ∧
     (assessValidity f).validity_confidence = (assessValidity g).validity_confidence) ∧
    ((assessValidity effortOnlyFS).validity_status = ValidityStatus.VALID ∧
     (assessValidity effortOnlyFS).validity_confidence = 1 ∧
     (assessValidity effortOnlyFS).validity_concerns ≠ []) := by
  have hs : structuralChecks f = structuralChecks g := by
    rw [← structuralChecks_eraseEffort f, ← structuralChecks_eraseEffort g, h]
  obtain ⟨f1, f2, f3, f4, f5⟩ := checkEffort_counts f (structuralChecks f)
  obtain ⟨g1, g2, g3, g4, g5⟩ := checkEffort_counts g (structuralChecks g)
  refine ⟨⟨?_, ?_⟩, ?_⟩
  · show (determineValidity (checkEffort f (structuralChecks f))).1 =
      (determineValidity (checkEffort g (structuralChecks g))).1
    rw [determineValidity_status_eq, determineValidity_status_eq,
      validityTotalScore_checkEffort, validityTotalScore_checkEffort,
      f1, f2, g1, g2, hs]
  · show (determineValidity (checkEffort f (structuralChecks f))).2 =
      (determineValidity (checkEffort g (structuralChecks g))).2
    rw [determineValidity_conf_eq, determineValidity_conf_eq,
      validityTotalScore_checkEffort, validityTotalScore_checkEffort, hs]
  · norm_num [effortOnlyFS, assessValidity, structuralChecks, checkBelowChance,
      checkResponseTimes, checkConsistency, checkImprobability, checkEffort,
      determineValidity, validityTotalScore, validityConfidence]

/-- C9 witness: the effort-noninterference theorem applied to the concrete
pair effortOnlyFS and emptyFS, which agree outside the effort features. -/
theorem C9_witness :
    (assessValidity effortOnlyFS).validity_status =
      (assessValidity emptyFS).validity_status :=
  (C9_effort_noninterference effortOnlyFS emptyFS rfl).1.1

/-- C3, counterexample: on the claimed cognitive scenario the code does not
return stage Normal, nor a disease-A risk below 10, nor a category score
above 85. -/
theorem C3_scenario_counterexample :
    ¬ ((calculateRiskScores "cognitive" c3FS).stage = "Normal" ∧
       (calculateRiskScores "cognitive" c3FS).ad_risk < 10 ∧
       85 < (calculateRiskScores "cognitive" c3FS).category_score ∧
       (calculateRiskScores "cognitive" c3FS).validity.status = ValidityStatus.VALID) := by
  norm_num [c3FS, calculateRiskScores, dispatchAssess, assessCognitive, cogMoca,
    cogTotalEarned, cogTotalPossible, cogAttention, cogExecutive, cogMemImmediate,
    cogMemDelayed, cogWorkingMemory, cogProcessingSpeed, cogLanguage,
    cogStroopAttentionPts, cogStroopExecPts, cogStroopSpeedPts, cogNbackWmPts,
    cogNbackAttnPts, cogRecallImmPts, cogDelayedPts, cogRecognitionBonus,
    cogStage, cogAdRiskRaw, cogAdRisk, cogCategoryScoreRaw, cogNotes, getSeverity,
    getPdStageFromRisk, interpretCognitive, getCognitiveRecommendations, round2,
    round1, round_eq, assessValidity, structuralChecks, checkBelowChance,
    checkResponseTimes, checkConsistency, checkImprobability, checkEffort,
    determineValidity, validityTotalScore, validityConfidence, CognitiveStage.value]

/-- C3, amended: on the claimed cognitive scenario the code returns stage
Mild Dementia, a disease-A risk of 48.23, a category score of 64.52, and a
Valid validity verdict with confidence 1.0. -/
theorem C3_scenario_actual :
    (calculateRiskScores "cognitive" c3FS).stage = "Mild Dementia" ∧
    (calculateRiskScores "cognitive" c3FS).ad_risk = 4823/100 ∧
    (calculateRiskScores "cognitive" c3FS).category_score = 6452/100 ∧
    (calculateRiskScores "cognitive" c3FS).validity.status = ValidityStatus.VALID ∧
    (calculateRiskScores "cognitive" c3FS).validity.confidence = 1 := by
  norm_num [c3FS, calculateRiskScores, dispatchAssess, assessCognitive, cogMoca,
    cogTotalEarned, cogTotalPossible, cogAttention, cogExecutive, cogMemImmediate,
    cogMemDelayed, cogWorkingMemory, cogProcessingSpeed, cogLanguage,
    cogStroopAttentionPts, cogStroopExecPts, cogStroopSpeedPts, cogNbackWmPts,
    cogNbackAttnPts, cogRecallImmPts, cogDelayedPts, cogRecognitionBonus,
    cogStage, cogAdRiskRaw, cogAdRisk, cogCategoryScoreRaw, cogNotes, getSeverity,
    getPdStageFromRisk, interpretCognitive, getCognitiveRecommendations, round2,
    round1, round_eq, assessValidity, structuralChecks, checkBelowChance,
    checkResponseTimes, checkConsistency, checkImprobability, checkEffort,
    determineValidity, validityTotalScore, validityConfidence, CognitiveStage.value]

/-- C2, counterexample: on the completely empty FeatureSet the cognitive
assessor returns a category score of 0 (not the mid-range default 50) and a
within-normal-limits note (not the insufficient-data note). -/
theorem C2_empty_cognitive_counterexample :
    (calculateRiskScores "cognitive" emptyFS).category_score = 0 ∧
    (calculateRiskScores "cognitive" emptyFS).clinical_notes =
      ["Cognitive performance within normal limits"] ∧
    (calculateRiskScores "cognitive" emptyFS).ad_risk = 100 := by
  norm_num [emptyFS, calculateRiskScores, dispatchAssess, assessCognitive, cogMoca,
    cogTotalEarned, cogTotalPossible, cogAttention, cogExecutive, cogMemImmediate,
    cogMemDelayed, cogWorkingMemory, cogProcessingSpeed, cogLanguage,
    cogStroopAttentionPts, cogStroopExecPts, cogStroopSpeedPts, cogNbackWmPts,
    cogNbackAttnPts, cogRecallImmPts, cogDelayedPts, cogRecognitionBonus,
    cogStage, cogAdRiskRaw, cogAdRisk, cogCategoryScoreRaw, cogNotes, getSeverity,
    getPdStageFromRisk, interpretCognitive, getCognitiveRecommendations, round2,
    round1, round_eq, assessValidity, structuralChecks, checkBelowChance,
    checkResponseTimes, checkConsistency, checkImprobability, checkEffort,
    determineValidity, validityTotalScore, validityConfidence, CognitiveStage.value]

/-- C2, amended: an empty FeatureSet never fails, but the five named
categories run their ordinary assessors on it (cognitive and speech score 0,
motor, gait and facial score 100, each with a within-normal-limits note);
the mid-range insufficient-data default is returned only for a category
string outside the five. -/
theorem C2_empty_default_behaviour :
    ((calculateRiskScores "cognitive" emptyFS).category_score = 0 ∧
     (calculateRiskScores "cognitive" emptyFS).clinical_notes =
       ["Cognitive performance within normal limits"]) ∧
    ((calculateRiskScores "speech" emptyFS).category_score = 0 ∧
     (calculateRiskScores "speech" emptyFS).clinical_notes =
       ["Speech parameters within normal limits"]) ∧
    ((calculateRiskScores "motor" emptyFS).category_score = 100 ∧
     (calculateRiskScores "motor" emptyFS).clinical_notes =
       ["Motor function within normal limits"]) ∧
    ((calculateRiskScores "gait" emptyFS).category_score = 100 ∧
     (calculateRiskScores "gait" emptyFS).clinical_notes =
       ["Gait and balance within normal limits"]) ∧
    ((calculateRiskScores "facial" emptyFS).category_score = 100 ∧
     (calculateRiskScores "facial" emptyFS).clinical_notes =
       ["Facial expression within normal range"]) ∧
    (∀ c : String, c ∉ (["cognitive", "speech", "motor", "gait", "facial"] : List String) →
      (calculateRiskScores c emptyFS).category_score = 50 ∧
      (calculateRiskScores c emptyFS).clinical_notes = ["Insufficient data for assessment"]) := by
  have hval : (assessValidity emptyFS).validity_status = ValidityStatus.VALID := by
    norm_num [emptyFS, assessValidity, structuralChecks, checkBelowChance,
      checkResponseTimes, checkConsistency, checkImprobability, checkEffort,
      determineValidity, validityTotalScore, validityConfidence]
  refine ⟨?_, ?_, ?_, ?_, ?_, ?_⟩
  · norm_num [emptyFS, calculateRiskScores, dispatchAssess, assessCognitive, cogMoca,
      cogTotalEarned, cogTotalPossible, cogAttention, cogExecutive, cogMemImmediate,
      cogMemDelayed, cogWorkingMemory, cogProcessingSpeed, cogLanguage,
      cogStroopAttentionPts, cogStroopExecPts, cogStroopSpeedPts, cogNbackWmPts,
      cogNbackAttnPts, cogRecallImmPts, cogDelayedPts, cogRecognitionBonus,
      cogStage, cogAdRiskRaw, cogAdRisk, cogCategoryScoreRaw, cogNotes, getSeverity,
      getPdStageFromRisk, interpretCognitive, getCognitiveRecommendations, round2,
      round1, round_eq, assessValidity, structuralChecks, checkBelowChance,
      checkResponseTimes, checkConsistency, checkImprobability, checkEffort,
      determineValidity, validityTotalScore, validityConfidence]
  · norm_num +decide [emptyFS, calculateRiskScores, dispatchAssess, assessSpeech,
      speechCategoryScoreRaw, speechAdRiskRaw, speechPdRiskRaw, speechAdScore,
      speechPdScore, speechStoryPts, speechVowelPts, speechRatePts, speechFluencyPts,
      getStageFromRisk, getSeverity, getAdStageFromRisk, getPdStageFromRisk,
      round2, round_eq, assessValidity, structuralChecks, checkBelowChance,
      checkResponseTimes, checkConsistency, checkImprobability, checkEffort,
      determineValidity, validityTotalScore, validityConfidence]
  · norm_num +decide [emptyFS, calculateRiskScores, dispatchAssess, assessMotor, motorUpdrs,
      motorBradykinesia, motorTremor, motorMaxScore, motorHealthRaw, motorPdRaw,
      updrsTotal, updrsGet, calculateHoehnYahr, truthy, getSeverity,
      getAdStageFromRisk, ParkinsonStage.value, round2, round_eq, assessValidity, structuralChecks, checkBelowChance,
      checkResponseTimes, checkConsistency, checkImprobability, checkEffort,
      determineValidity, validityTotalScore, validityConfidence]
  · norm_num +decide [emptyFS, calculateRiskScores, dispatchAssess, assessGait, gaitUpdrs,
      gaitWalkScore, gaitPosturalScore, gaitMaxScore, gaitHealthRaw, gaitPdRaw,
      updrsTotal, updrsGet, calculateHoehnYahr, truthy, getSeverity,
      getAdStageFromRisk, ParkinsonStage.value, round2, round_eq, assessValidity, structuralChecks, checkBelowChance,
      checkResponseTimes, checkConsistency, checkImprobability, checkEffort,
      determineValidity, validityTotalScore, validityConfidence]
  · norm_num +decide [emptyFS, calculateRiskScores, dispatchAssess, assessFacial, facialUpdrs,
      facialBlinkScore, facialExpressionScore, facialMaxScore, facialHealthRaw,
      facialPdRaw, updrsTotal, truthy, getStageFromRisk, getSeverity,
      getAdStageFromRisk, getPdStageFromRisk, round2, round_eq, assessValidity, structuralChecks, checkBelowChance,
      checkResponseTimes, checkConsistency, checkImprobability, checkEffort,
      determineValidity, validityTotalScore, validityConfidence]
  · intro c hc
    simp only [List.mem_cons, List.not_mem_nil, or_false, not_or] at hc
    obtain ⟨h1, h2, h3, h4, h5⟩ := hc
    constructor <;>
      simp [calculateRiskScores, dispatchAssess, defaultAssessment, hval,
        h1, h2, h3, h4, h5]

/-- C5: the Hoehn-Yahr computation never returns stage 4 (the branch that
would is shadowed by the stage-3 branch), although the maximal gait input
drives both UPDRS sub-scores to 3 and the computed stage only reaches
stage 3. -/
theorem C5_hoehn_yahr_stage4_unreachable :
    (∀ u : List (String × ℕ), calculateHoehnYahr u ≠ ParkinsonStage.STAGE_4) ∧
    updrsTotal (gaitUpdrs c5GaitFS) = 6 ∧
    updrsGet (gaitUpdrs c5GaitFS) "postural_stability" = 3 ∧
    (calculateRiskScores "gait" c5GaitFS).stage =
      "Mild-moderate bilateral; postural instability" := by
  refine ⟨?_, ?_, ?_, ?_⟩
  · intro u
    unfold calculateHoehnYahr
    dsimp only
    split_ifs with h1 h2 h3 h4 h5 <;> first | decide | omega
  · norm_num [gaitUpdrs, gaitWalkScore, gaitPosturalScore, c5GaitFS, truthy, updrsTotal]
  · norm_num [gaitUpdrs, gaitWalkScore, gaitPosturalScore, c5GaitFS, truthy, updrsGet,
      List.lookup]
    decide
  · norm_num +decide [c5GaitFS, calculateRiskScores, dispatchAssess, assessGait, gaitUpdrs,
      gaitWalkScore, gaitPosturalScore, gaitMaxScore, gaitHealthRaw, gaitPdRaw,
      updrsTotal, updrsGet, List.lookup, calculateHoehnYahr, truthy, getSeverity,
      getAdStageFromRisk, ParkinsonStage.value, round2, round_eq, assessValidity,
      structuralChecks, checkBelowChance, checkResponseTimes, checkConsistency,
      checkImprobability, checkEffort, determineValidity, validityTotalScore,
      validityConfidence]

/-- C6: when the motor category is the only supplied result, the composite
PD risk equals that result's own pd_risk exactly, for every FeatureSet. -/
theorem C6_single_motor_composite (f : FeatureSet) :
    (fuseComposite [("motor", calculateRiskScores "motor" f)]).composite_pd_risk =
      (calculateRiskScores "motor" f).pd_risk := by
  have hpd : (calculateRiskScores "motor" f).pd_risk = round2 (motorPdRaw f) := by
    norm_num +decide [calculateRiskScores, dispatchAssess, assessMotor]
    split_ifs <;> rfl
  show round2 (compositePdRaw [("motor", calculateRiskScores "motor" f)]) = _
  have hw : compositePdRaw [("motor", calculateRiskScores "motor" f)] =
      (calculateRiskScores "motor" f).pd_risk := by
    norm_num [compositePdRaw, totalPdWeight, pdWeighted, WEIGHTS_PD]
  rw [hw, hpd, round2_round2]

/-- Modelled from the spec: the five-band recommendation table of claim C8. -/
def claimC8band (risk : ℚ) : String :=
  if risk < 15 then
    "Results within normal limits. Continue regular health monitoring."
  else if risk < 30 then
    "Minor deviations noted. Consider follow-up assessment in 6-12 months."
  else if risk < 50 then
    "Some concerns identified. Consultation with a neurologist is recommended."
  else if risk < 70 then
    "Moderate risk indicators present. Clinical evaluation is strongly recommended."
  else
    "Significant risk indicators detected. Urgent neurological evaluation is recommended."

/-- The per-category results produced by assess_category on a list of
category-and-features inputs, as handed to fuse_composite. -/
def assessedResults (inputs : List (String × FeatureSet)) : List (String × RiskResult) :=
  inputs.map (fun p => (p.1, calculateRiskScores p.1 p.2))

lemma calculateRiskScores_is_valid (c : String) (f : FeatureSet) :
    (calculateRiskScores c f).validity.is_valid = true ↔
    (calculateRiskScores c f).validity.status = ValidityStatus.VALID := by
  show decide ((assessValidity f).validity_status = ValidityStatus.VALID) = true ↔ _
  exact decide_eq_true_iff

lemma validityConcernList_eq_nil_iff (rs : List (String × RiskResult)) :
    validityConcernList rs = [] ↔ ∀ p ∈ rs, p.2.validity.is_valid = true := by
  unfold validityConcernList
  rw [List.filterMap_eq_nil_iff]
  constructor
  · intro h p hp
    have := h p hp
    by_contra hv
    rw [if_neg (by simpa using hv)] at this
    exact Option.some_ne_none _ this
  · intro h p hp
    rw [if_pos (h p hp)]

/-- C8: a non-Valid validity status in any supplied category forces the
retest recommendation regardless of risk, and otherwise the recommendation
is the five-band function of the maximum composite risk. -/
theorem C8_recommendation_policy (inputs : List (String × FeatureSet)) :
    ((∃ p ∈ assessedResults inputs, p.2.validity.status ≠ ValidityStatus.VALID) →
      (fuseComposite (assessedResults inputs)).recommendation =
        "Results may be unreliable due to validity concerns. Consider re-testing under standardized conditions.") ∧
    ((∀ p ∈ assessedResults inputs, p.2.validity.status = ValidityStatus.VALID) →
      (fuseComposite (assessedResults inputs)).recommendation =
        claimC8band (max (compositeAdRaw (assessedResults inputs))
          (compositePdRaw (assessedResults inputs)))) := by
  constructor
  · rintro ⟨p, hp, hne⟩
    have hnotnil : validityConcernList (assessedResults inputs) ≠ [] := by
      rw [Ne, validityConcernList_eq_nil_iff]
      intro hall
      obtain ⟨q, hq, hpq⟩ := List.mem_map.mp hp
      have hv := hall p hp
      rw [← hpq] at hne hv
      exact hne ((calculateRiskScores_is_valid q.1 q.2).mp hv)
    show getRecommendation _ _ (validityConcernList (assessedResults inputs)) = _
    unfold getRecommendation
    rw [if_pos hnotnil]
  · intro hall
    have hnil : validityConcernList (assessedResults inputs) = [] := by
      rw [validityConcernList_eq_nil_iff]
      intro p hp
      obtain ⟨q, hq, hpq⟩ := List.mem_map.mp hp
      have hv := hall p hp
      rw [← hpq] at hv ⊢
      exact (calculateRiskScores_is_valid q.1 q.2).mpr hv
    show getRecommendation _ _ (validityConcernList (assessedResults inputs)) = _
    unfold getRecommendation claimC8band
    rw [hnil, if_neg (by simp)]

/-- C8 witness: the policy applied to one invalid cognitive input (forcing
the retest message) and to one valid motor input (falling through to the
banding). -/
theorem C8_witness :
    (fuseComposite (assessedResults [("cognitive", nbackChanceFS)])).recommendation =
      "Results may be unreliable due to validity concerns. Consider re-testing under standardized conditions." ∧
    (fuseComposite (assessedResults [("motor", emptyFS)])).recommendation =
      claimC8band (max (compositeAdRaw (assessedResults [("motor", emptyFS)]))
        (compositePdRaw (assessedResults [("motor", emptyFS)]))) := by
  constructor
  · refine (C8_recommendation_policy [("cognitive", nbackChanceFS)]).1
      ⟨("cognitive", calculateRiskScores "cognitive" nbackChanceFS),
        by simp [assessedResults], ?_⟩
    norm_num [nbackChanceFS, calculateRiskScores, assessValidity, structuralChecks,
      checkBelowChance, checkResponseTimes, checkConsistency, checkImprobability,
      checkEffort, determineValidity, validityTotalScore, validityConfidence]
    decide
  · refine (C8_recommendation_policy [("motor", emptyFS)]).2 ?_
    intro p hp
    simp only [assessedResults, List.map_cons, List.map_nil, List.mem_singleton] at hp
    subst hp
    norm_num [emptyFS, calculateRiskScores, assessValidity, structuralChecks,
      checkBelowChance, checkResponseTimes, checkConsistency, checkImprobability,
      checkEffort, determineValidity, validityTotalScore, validityConfidence]

/-! Closed label enumerations and membership lemmas (claim C4). -/

/-- Every stage string the five assessors can emit: the CognitiveStage
values, the ParkinsonStage values, and the risk-banding labels of
_get_stage_from_risk. -/
def stageLabels : List String :=
  ["Normal", "Subjective Cognitive Decline", "Mild Cognitive Impairment",
   "Mild Dementia", "Moderate Dementia", "Severe Dementia",
   "No signs of disease", "Unilateral involvement only",
   "Unilateral and axial involvement", "Bilateral without balance impairment",
   "Mild bilateral with recovery on pull test",
   "Mild-moderate bilateral; postural instability",
   "Severe disability; able to walk/stand unassisted",
   "Wheelchair bound or bedridden",
   "Minimal", "Mild", "Moderate", "Severe"]

/-- The severity strings of _get_severity. -/
def severityLabels : List String := ["low", "mild", "moderate", "high", "severe"]

lemma cogStageValue_mem (s : CognitiveStage) : s.value ∈ stageLabels := by
  cases s <;> simp [CognitiveStage.value, stageLabels]

lemma pdStageValue_mem (s : ParkinsonStage) : s.value ∈ stageLabels := by
  cases s <;> simp [ParkinsonStage.value, stageLabels]

lemma getStageFromRisk_mem (r : ℚ) : getStageFromRisk r ∈ stageLabels := by
  unfold getStageFromRisk
  split_ifs <;> simp [stageLabels]

lemma getAdStageFromRisk_mem (r : ℚ) : getAdStageFromRisk r ∈ stageLabels := by
  unfold getAdStageFromRisk
  split_ifs <;> exact cogStageValue_mem _

lemma getPdStageFromRisk_mem (r : ℚ) : getPdStageFromRisk r ∈ stageLabels := by
  unfold getPdStageFromRisk
  split_ifs <;> exact pdStageValue_mem _

lemma getSeverity_mem (r : ℚ) : getSeverity r ∈ severityLabels := by
  unfold getSeverity
  split_ifs <;> simp [severityLabels]

/-! Bounds on the cognitive domain points (claims C4 and C10). -/

lemma cogStroopAttentionPts_le (a : ℚ) : cogStroopAttentionPts a ≤ 3 := by
  unfold cogStroopAttentionPts; split_ifs <;> omega

lemma cogStroopExecPts_le (a : ℚ) : cogStroopExecPts a ≤ 3 := by
  unfold cogStroopExecPts; split_ifs <;> omega

lemma cogStroopSpeedPts_le (a : ℚ) : cogStroopSpeedPts a ≤ 2 := by
  unfold cogStroopSpeedPts; split_ifs <;> omega

lemma cogNbackWmPts_le (a : ℚ) : cogNbackWmPts a ≤ 3 := by
  unfold cogNbackWmPts; split_ifs <;> omega

lemma cogNbackAttnPts_le (a : ℚ) : cogNbackAttnPts a ≤ 2 := by
  unfold cogNbackAttnPts; split_ifs <;> omega

lemma cogRecallImmPts_le (a : ℚ) : cogRecallImmPts a ≤ 5 := by
  unfold cogRecallImmPts; split_ifs <;> omega

lemma cogDelayedPts_le (a : ℚ) : cogDelayedPts a ≤ 5 := by
  unfold cogDelayedPts; split_ifs <;> omega

lemma cogRecognitionBonus_le (a : ℚ) : cogRecognitionBonus a ≤ 1 := by
  unfold cogRecognitionBonus; split_ifs <;> omega

lemma cogAttention_le (f : FeatureSet) : cogAttention f ≤ 5 := by
  have h1 := cogStroopAttentionPts_le (f.stroop_accuracy.getD 0)
  have h2 := cogNbackAttnPts_le (f.nback_accuracy.getD 0)
  unfold cogAttention
  split_ifs <;> omega

lemma cogExecutive_le (f : FeatureSet) : cogExecutive f ≤ 3 := by
  have h1 := cogStroopExecPts_le (f.stroop_interference.getD 100)
  unfold cogExecutive
  split_ifs <;> omega

lemma cogProcessingSpeed_le (f : FeatureSet) : cogProcessingSpeed f ≤ 2 := by
  have h1 := cogStroopSpeedPts_le (f.stroop_mean_rt.getD 0)
  unfold cogProcessingSpeed
  split_ifs <;> omega

lemma cogWorkingMemory_le (f : FeatureSet) : cogWorkingMemory f ≤ 4 := by
  have h1 := cogNbackWmPts_le (f.nback_accuracy.getD 0)
  unfold cogWorkingMemory
  split_ifs <;> omega

lemma cogMemImmediate_le (f : FeatureSet) : cogMemImmediate f ≤ 6 := by
  have h1 := cogRecallImmPts_le (f.recall_accuracy.getD 0)
  have h2 := cogRecognitionBonus_le (f.recognition_accuracy.getD 0)
  unfold cogMemImmediate
  split_ifs <;> omega

lemma cogMemDelayed_le (f : FeatureSet) : cogMemDelayed f ≤ 5 := by
  have h1 := cogDelayedPts_le (f.delayed_recall_accuracy.getD 0)
  unfold cogMemDelayed
  split_ifs <;> omega

lemma cogLanguage_eq_zero (f : FeatureSet) : cogLanguage f = 0 := rfl

lemma cogTotalEarned_le (f : FeatureSet) : cogTotalEarned f ≤ 25 := by
  have h1 := cogAttention_le f
  have h2 := cogExecutive_le f
  have h3 := cogMemImmediate_le f
  have h4 := cogMemDelayed_le f
  have h5 := cogWorkingMemory_le f
  have h6 := cogProcessingSpeed_le f
  have h7 := cogLanguage_eq_zero f
  unfold cogTotalEarned
  omega

lemma cogTotalPossible_cast : ((cogTotalPossible : ℕ) : ℚ) = 31 := by
  norm_num [cogTotalPossible]

lemma cogMoca_nonneg (f : FeatureSet) : 0 ≤ cogMoca f := by
  unfold cogMoca
  rw [if_pos (by norm_num [cogTotalPossible])]
  positivity

lemma cogMoca_le (f : FeatureSet) : cogMoca f ≤ 750/31 := by
  unfold cogMoca
  rw [if_pos (by norm_num [cogTotalPossible]), cogTotalPossible_cast]
  have hE : (cogTotalEarned f : ℚ) ≤ 25 := by exact_mod_cast cogTotalEarned_le f
  linarith

lemma cogStage_ne_normal {m : ℚ} (h : m < 26) :
    cogStage m ≠ CognitiveStage.NORMAL := by
  unfold cogStage
  rw [if_neg (by linarith)]
  split_ifs <;> decide

lemma cogAdRiskRaw_ge {m : ℚ} (h : m ≤ 750/31) : 745/31 ≤ cogAdRiskRaw m := by
  unfold cogAdRiskRaw
  split_ifs with h1 h2 h3 h4 <;> linarith

lemma cogAdRisk_nonneg (f : FeatureSet) : 0 ≤ cogAdRisk f :=
  le_min (by norm_num) (le_max_left _ _)

lemma cogAdRisk_le_100 (f : FeatureSet) : cogAdRisk f ≤ 100 :=
  min_le_left _ _

lemma cogAdRisk_ge (f : FeatureSet) : 745/31 ≤ cogAdRisk f := by
  have h1 := cogAdRiskRaw_ge (cogMoca_le f)
  exact le_min (by norm_num) (le_trans h1 (le_max_right _ _))

lemma calc_fields (c : String) (f : FeatureSet) :
    (calculateRiskScores c f).ad_risk = (dispatchAssess c f).ad_risk ∧
    (calculateRiskScores c f).pd_risk = (dispatchAssess c f).pd_risk ∧
    (calculateRiskScores c f).category_score = (dispatchAssess c f).category_score ∧
    (calculateRiskScores c f).stage = (dispatchAssess c f).stage ∧
    (calculateRiskScores c f).severity = (dispatchAssess c f).severity ∧
    (calculateRiskScores c f).ad_stage = (dispatchAssess c f).ad_stage ∧
    (calculateRiskScores c f).pd_stage = (dispatchAssess c f).pd_stage := by
  unfold calculateRiskScores
  dsimp only
  split_ifs <;> exact ⟨rfl, rfl, rfl, rfl, rfl, rfl, rfl⟩

lemma dispatchAssess_cognitive (f : FeatureSet) :
    dispatchAssess "cognitive" f = assessCognitive f := by
  simp [dispatchAssess]

lemma dispatchAssess_speech (f : FeatureSet) :
    dispatchAssess "speech" f = assessSpeech f := by
  norm_num +decide [dispatchAssess]

lemma dispatchAssess_motor (f : FeatureSet) :
    dispatchAssess "motor" f = assessMotor f := by
  norm_num +decide [dispatchAssess]

lemma dispatchAssess_gait (f : FeatureSet) :
    dispatchAssess "gait" f = assessGait f := by
  norm_num +decide [dispatchAssess]

lemma dispatchAssess_facial (f : FeatureSet) :
    dispatchAssess "facial" f = assessFacial f := by
  norm_num +decide [dispatchAssess]

/-- C10: the language domain is never awarded points, so the earned total is
at most 25 of the 31 possible, the MoCA-equivalent scale value never exceeds
750/31 (about 24.2), the cognitive stage is never Normal, and the reported
disease-A risk is always at least 15. -/
theorem C10_language_domain_dead (f : FeatureSet) :
    cogLanguage f = 0 ∧
    cogTotalEarned f ≤ 25 ∧
    cogMoca f ≤ 750/31 ∧
    (calculateRiskScores "cognitive" f).stage ≠ "Normal" ∧
    15 ≤ (calculateRiskScores "cognitive" f).ad_risk := by
  refine ⟨rfl, cogTotalEarned_le f, cogMoca_le f, ?_, ?_⟩
  · rw [(calc_fields "cognitive" f).2.2.2.1, dispatchAssess_cognitive]
    show (cogStage (cogMoca f)).value ≠ "Normal"
    have hne := cogStage_ne_normal (lt_of_le_of_lt (cogMoca_le f) (by norm_num))
    cases hs : cogStage (cogMoca f) <;> first | (exact absurd hs hne) | decide
  · rw [(calc_fields "cognitive" f).1, dispatchAssess_cognitive]
    show (15 : ℚ) ≤ round2 (cogAdRisk f)
    have h1 := round2_mono (cogAdRisk_ge f)
    have h2 : round2 (745/31 : ℚ) = 2403/100 := by
      norm_num [round2, round_eq]
    rw [h2] at h1
    linarith

/-! Bounds on the speech point budgets (claim C4). -/

lemma speechStoryPts_le (a : ℚ) : speechStoryPts a ≤ 5 := by
  unfold speechStoryPts; split_ifs <;> omega

lemma speechVowelPts_le (a : ℚ) : speechVowelPts a ≤ 5 := by
  unfold speechVowelPts; split_ifs <;> omega

lemma speechRatePts_le (a : ℚ) : speechRatePts a ≤ 2 := by
  unfold speechRatePts; split_ifs <;> omega

lemma speechFluencyPts_le (a : ℚ) : speechFluencyPts a ≤ 3 := by
  unfold speechFluencyPts; split_ifs <;> omega

lemma speechAdScore_le (f : FeatureSet) : speechAdScore f ≤ 10 := by
  have h1 := speechStoryPts_le (f.story_recall_accuracy.getD 0)
  have h2 := speechRatePts_le (f.speech_rate.getD 0)
  have h3 := speechFluencyPts_le (f.fluency_word_count.getD 0)
  unfold speechAdScore
  split_ifs <;> omega

lemma speechPdScore_le (f : FeatureSet) : speechPdScore f ≤ 10 := by
  have h1 := speechVowelPts_le (f.vowel_duration.getD 0)
  have h2 := speechRatePts_le (f.speech_rate.getD 0)
  unfold speechPdScore
  split_ifs <;> omega

lemma speech_invert_mem {s : ℕ} (hs : s ≤ 10) :
    0 ≤ (1 - (s : ℚ) / 10) * 25 ∧ (1 - (s : ℚ) / 10) * 25 ≤ 100 := by
  have h1 : ((s : ℚ)) ≤ 10 := by exact_mod_cast hs
  have h0 : (0 : ℚ) ≤ (s : ℚ) := by positivity
  constructor <;> nlinarith

lemma speechCategoryScoreRaw_mem (f : FeatureSet) :
    0 ≤ speechCategoryScoreRaw f ∧ speechCategoryScoreRaw f ≤ 100 := by
  have h1 : ((speechAdScore f : ℚ)) ≤ 10 := by exact_mod_cast speechAdScore_le f
  have h2 : ((speechPdScore f : ℚ)) ≤ 10 := by exact_mod_cast speechPdScore_le f
  have h3 : (0 : ℚ) ≤ (speechAdScore f : ℚ) := by positivity
  have h4 : (0 : ℚ) ≤ (speechPdScore f : ℚ) := by positivity
  unfold speechCategoryScoreRaw
  constructor <;> nlinarith

/-! Bounds on the UPDRS dictionaries (claim C4). -/

lemma updrsTotal_le : ∀ (u : List (String × ℕ)), (∀ p ∈ u, p.2 ≤ 4) →
    updrsTotal u ≤ u.length * 4 := by
  intro u
  induction u with
  | nil => intro _; simp [updrsTotal]
  | cons p t ih =>
    intro h
    have hp := h p (List.mem_cons_self p t)
    have ht := ih (fun q hq => h q (List.mem_cons_of_mem p hq))
    simp only [updrsTotal, List.map_cons, List.sum_cons, List.length_cons] at *
    omega

lemma motorBradykinesia_le (f : FeatureSet) :
    ∀ v, motorBradykinesia f = some v → v ≤ 4 := by
  intro v hv
  unfold motorBradykinesia at hv
  dsimp only at hv
  split_ifs at hv <;> simp at hv <;> omega

lemma motorTremor_le (f : FeatureSet) :
    ∀ v, motorTremor f = some v → v ≤ 4 := by
  intro v hv
  unfold motorTremor at hv
  dsimp only at hv
  split_ifs at hv <;> simp at hv <;> omega

lemma motorUpdrs_values (f : FeatureSet) : ∀ p ∈ motorUpdrs f, p.2 ≤ 4 := by
  intro p hp
  unfold motorUpdrs at hp
  rcases List.mem_append.mp hp with h | h
  · rcases hb : motorBradykinesia f with _ | v
    · rw [hb] at h; simp at h
    · rw [hb] at h
      simp only [List.mem_singleton] at h
      rw [h]
      exact motorBradykinesia_le f v hb
  · rcases hb : motorTremor f with _ | v
    · rw [hb] at h; simp at h
    · rw [hb] at h
      simp only [List.mem_singleton] at h
      rw [h]
      exact motorTremor_le f v hb

lemma gaitWalkScore_le (f : FeatureSet) :
    ∀ v, gaitWalkScore f = some v → v ≤ 4 := by
  intro v hv
  unfold gaitWalkScore at hv
  dsimp only at hv
  split_ifs at hv <;> simp at hv <;> omega

lemma gaitPosturalScore_le (f : FeatureSet) :
    ∀ v, gaitPosturalScore f = some v → v ≤ 4 := by
  intro v hv
  unfold gaitPosturalScore at hv
  dsimp only at hv
  split_ifs at hv <;> simp at hv <;> omega

lemma gaitUpdrs_values (f : FeatureSet) : ∀ p ∈ gaitUpdrs f, p.2 ≤ 4 := by
  intro p hp
  unfold gaitUpdrs at hp
  rcases List.mem_append.mp hp with h | h
  · rcases hb : gaitWalkScore f with _ | v
    · rw [hb] at h; simp at h
    · rw [hb] at h
      simp only [List.mem_singleton] at h
      rw [h]
      exact gaitWalkScore_le f v hb
  · rcases hb : gaitPosturalScore f with _ | v
    · rw [hb] at h; simp at h
    · rw [hb] at h
      simp only [List.mem_singleton] at h
      rw [h]
      exact gaitPosturalScore_le f v hb

lemma facialBlinkScore_le (f : FeatureSet) :
    ∀ v, facialBlinkScore f = some v → v ≤ 4 := by
  intro v hv
  unfold facialBlinkScore at hv
  dsimp only at hv
  split_ifs at hv <;> simp at hv <;> omega

lemma facialExpressionScore_le (f : FeatureSet) :
    ∀ v, facialExpressionScore f = some v → v ≤ 4 := by
  intro v hv
  unfold facialExpressionScore at hv
  dsimp only at hv
  split_ifs at hv <;> simp at hv <;> omega

lemma facialUpdrs_values (f : FeatureSet) : ∀ p ∈ facialUpdrs f, p.2 ≤ 4 := by
  intro p hp
  unfold facialUpdrs at hp
  rcases List.mem_append.mp hp with h | h
  · rcases hb : facialBlinkScore f with _ | v
    · rw [hb] at h; simp at h
    · rw [hb] at h
      simp only [List.mem_singleton] at h
      rw [h]
      exact facialBlinkScore_le f v hb
  · rcases hb : facialExpressionScore f with _ | v
    · rw [hb] at h; simp at h
    · rw [hb] at h
      simp only [List.mem_singleton] at h
      rw [h]
      exact facialExpressionScore_le f v hb

lemma ratio_mul_bounds {t m : ℕ} (K : ℚ) (hK : 0 ≤ K) (ht : t ≤ m) (hm : 0 < m) :
    0 ≤ ((t : ℚ) / m) * K ∧ ((t : ℚ) / m) * K ≤ K := by
  have hm' : (0 : ℚ) < m := by exact_mod_cast hm
  have h1 : (t : ℚ) / m ≤ 1 := by
    rw [div_le_one hm']
    exact_mod_cast ht
  have h0 : (0 : ℚ) ≤ (t : ℚ) / m := by positivity
  exact ⟨mul_nonneg h0 hK, by nlinarith⟩

lemma invratio_mul_bounds {t m : ℕ} (ht : t ≤ m) (hm : 0 < m) :
    0 ≤ (((m : ℚ) - t) / m) * 100 ∧ (((m : ℚ) - t) / m) * 100 ≤ 100 := by
  have hm' : (0 : ℚ) < m := by exact_mod_cast hm
  have ht' : ((t : ℚ)) ≤ (m : ℚ) := by exact_mod_cast ht
  have h0 : (0 : ℚ) ≤ (t : ℚ) := by positivity
  have h1 : ((m : ℚ) - t) / m ≤ 1 := by
    rw [div_le_one hm']
    linarith
  have h2 : (0 : ℚ) ≤ ((m : ℚ) - t) / m := by
    apply div_nonneg (by linarith) hm'.le
  constructor <;> nlinarith

lemma motor_total_le_max (f : FeatureSet) :
    updrsTotal (motorUpdrs f) ≤ motorMaxScore f ∧ 0 < motorMaxScore f := by
  have ht := updrsTotal_le (motorUpdrs f) (motorUpdrs_values f)
  unfold motorMaxScore
  split_ifs with h
  · have := List.length_pos.mpr h
    omega
  · have he : motorUpdrs f = [] := not_not.mp (by simpa using h)
    rw [he]
    simp [updrsTotal]

lemma gait_total_le_max (f : FeatureSet) :
    updrsTotal (gaitUpdrs f) ≤ gaitMaxScore f ∧ 0 < gaitMaxScore f := by
  have ht := updrsTotal_le (gaitUpdrs f) (gaitUpdrs_values f)
  unfold gaitMaxScore
  split_ifs with h
  · have := List.length_pos.mpr h
    omega
  · have he : gaitUpdrs f = [] := not_not.mp (by simpa using h)
    rw [he]
    simp [updrsTotal]

lemma facial_total_le_max (f : FeatureSet) :
    updrsTotal (facialUpdrs f) ≤ facialMaxScore f ∧ 0 < facialMaxScore f := by
  have ht := updrsTotal_le (facialUpdrs f) (facialUpdrs_values f)
  unfold facialMaxScore
  split_ifs with h
  · have := List.length_pos.mpr h
    omega
  · have he : facialUpdrs f = [] := not_not.mp (by simpa using h)
    rw [he]
    simp [updrsTotal]

lemma motorPdRaw_mem (f : FeatureSet) : 0 ≤ motorPdRaw f ∧ motorPdRaw f ≤ 60 := by
  obtain ⟨ht, hm⟩ := motor_total_le_max f
  unfold motorPdRaw
  rw [if_pos hm]
  exact ratio_mul_bounds 60 (by norm_num) ht hm

lemma motorHealthRaw_mem (f : FeatureSet) :
    0 ≤ motorHealthRaw f ∧ motorHealthRaw f ≤ 100 := by
  obtain ⟨ht, hm⟩ := motor_total_le_max f
  unfold motorHealthRaw
  rw [if_pos hm]
  exact invratio_mul_bounds ht hm

lemma gaitPdRaw_mem (f : FeatureSet) : 0 ≤ gaitPdRaw f ∧ gaitPdRaw f ≤ 40 := by
  obtain ⟨ht, hm⟩ := gait_total_le_max f
  unfold gaitPdRaw
  rw [if_pos hm]
  exact ratio_mul_bounds 40 (by norm_num) ht hm

lemma gaitHealthRaw_mem (f : FeatureSet) :
    0 ≤ gaitHealthRaw f ∧ gaitHealthRaw f ≤ 100 := by
  obtain ⟨ht, hm⟩ := gait_total_le_max f
  unfold gaitHealthRaw
  rw [if_pos hm]
  exact invratio_mul_bounds ht hm

lemma facialPdRaw_mem (f : FeatureSet) : 0 ≤ facialPdRaw f ∧ facialPdRaw f ≤ 20 := by
  obtain ⟨ht, hm⟩ := facial_total_le_max f
  unfold facialPdRaw
  rw [if_pos hm]
  exact ratio_mul_bounds 20 (by norm_num) ht hm

lemma facialHealthRaw_mem (f : FeatureSet) :
    0 ≤ facialHealthRaw f ∧ facialHealthRaw f ≤ 100 := by
  obtain ⟨ht, hm⟩ := facial_total_le_max f
  unfold facialHealthRaw
  rw [if_pos hm]
  exact invratio_mul_bounds ht hm

/-! Range invariants per assessor and for the composite (claim C4). -/

/-- Range and label discipline of one AssessResult. -/
def assessRangeOK (r : AssessResult) : Prop :=
  0 ≤ r.ad_risk ∧ r.ad_risk ≤ 100 ∧
  0 ≤ r.pd_risk ∧ r.pd_risk ≤ 100 ∧
  0 ≤ r.category_score ∧ r.category_score ≤ 100 ∧
  r.stage ∈ stageLabels ∧ r.severity ∈ severityLabels ∧
  r.ad_stage ∈ stageLabels ∧ r.pd_stage ∈ stageLabels

/-- Range and label discipline of a full per-category result, including the
validity confidence. -/
def riskRangeOK (r : RiskResult) : Prop :=
  0 ≤ r.ad_risk ∧ r.ad_risk ≤ 100 ∧
  0 ≤ r.pd_risk ∧ r.pd_risk ≤ 100 ∧
  0 ≤ r.category_score ∧ r.category_score ≤ 100 ∧
  0 ≤ r.validity.confidence ∧ r.validity.confidence ≤ 1 ∧
  r.stage ∈ stageLabels ∧ r.severity ∈ severityLabels ∧
  r.ad_stage ∈ stageLabels ∧ r.pd_stage ∈ stageLabels

lemma determineValidity_conf_mem (ind : ValidityIndicators) :
    0 ≤ (determineValidity ind).2 ∧ (determineValidity ind).2 ≤ 1 := by
  have h1 : 0 ≤ validityConfidence ind := by
    unfold validityConfidence
    exact le_max_left _ _
  have h2 : validityConfidence ind ≤ 1 := by
    unfold validityConfidence
    apply max_le (by norm_num)
    have h : (0 : ℚ) ≤ (validityTotalScore ind : ℚ) * (1/10) := by positivity
    linarith
  unfold determineValidity
  split_ifs <;> first | exact ⟨h1, h2⟩ | exact ⟨by norm_num, by norm_num⟩

lemma calc_conf_mem (c : String) (f : FeatureSet) :
    0 ≤ (calculateRiskScores c f).validity.confidence ∧
    (calculateRiskScores c f).validity.confidence ≤ 1 := by
  have h := determineValidity_conf_mem (checkEffort f (structuralChecks f))
  constructor
  · show 0 ≤ round2 ((assessValidity f).validity_confidence)
    exact round2_nonneg h.1
  · show round2 ((assessValidity f).validity_confidence) ≤ 1
    exact round2_le_one h.2

lemma assessCognitive_range (f : FeatureSet) : assessRangeOK (assessCognitive f) := by
  unfold assessRangeOK
  refine ⟨?_, ?_, ?_, ?_, ?_, ?_, ?_, ?_, ?_, ?_⟩
  · show 0 ≤ round2 (cogAdRisk f)
    exact round2_nonneg (cogAdRisk_nonneg f)
  · show round2 (cogAdRisk f) ≤ 100
    exact round2_le_100 (cogAdRisk_le_100 f)
  · show 0 ≤ round2 (cogAdRisk f * (25/100))
    exact round2_nonneg (by nlinarith [cogAdRisk_nonneg f])
  · show round2 (cogAdRisk f * (25/100)) ≤ 100
    exact round2_le_100 (by nlinarith [cogAdRisk_le_100 f, cogAdRisk_nonneg f])
  · show 0 ≤ round2 (cogCategoryScoreRaw f)
    refine round2_nonneg ?_
    unfold cogCategoryScoreRaw
    have := cogMoca_nonneg f
    linarith
  · show round2 (cogCategoryScoreRaw f) ≤ 100
    refine round2_le_100 ?_
    unfold cogCategoryScoreRaw
    have := cogMoca_le f
    linarith
  · show (cogStage (cogMoca f)).value ∈ stageLabels
    exact cogStageValue_mem _
  · show getSeverity (cogAdRisk f) ∈ severityLabels
    exact getSeverity_mem _
  · show (cogStage (cogMoca f)).value ∈ stageLabels
    exact cogStageValue_mem _
  · show getPdStageFromRisk (cogAdRisk f * (25/100)) ∈ stageLabels
    exact getPdStageFromRisk_mem _

lemma assessSpeech_range (f : FeatureSet) : assessRangeOK (assessSpeech f) := by
  obtain ⟨ha0, ha1⟩ := speech_invert_mem (speechAdScore_le f)
  obtain ⟨hp0, hp1⟩ := speech_invert_mem (speechPdScore_le f)
  obtain ⟨hc0, hc1⟩ := speechCategoryScoreRaw_mem f
  unfold assessRangeOK
  refine ⟨?_, ?_, ?_, ?_, ?_, ?_, ?_, ?_, ?_, ?_⟩
  · show 0 ≤ round2 (speechAdRiskRaw f)
    exact round2_nonneg ha0
  · show round2 (speechAdRiskRaw f) ≤ 100
    exact round2_le_100 ha1
  · show 0 ≤ round2 (speechPdRiskRaw f)
    exact round2_nonneg hp0
  · show round2 (speechPdRiskRaw f) ≤ 100
    exact round2_le_100 hp1
  · show 0 ≤ round2 (speechCategoryScoreRaw f)
    exact round2_nonneg hc0
  · show round2 (speechCategoryScoreRaw f) ≤ 100
    exact round2_le_100 hc1
  · show getStageFromRisk (max (speechAdRiskRaw f) (speechPdRiskRaw f)) ∈ stageLabels
    exact getStageFromRisk_mem _
  · show getSeverity (max (speechAdRiskRaw f) (speechPdRiskRaw f)) ∈ severityLabels
    exact getSeverity_mem _
  · show getAdStageFromRisk (speechAdRiskRaw f) ∈ stageLabels
    exact getAdStageFromRisk_mem _
  · show getPdStageFromRisk (speechPdRiskRaw f) ∈ stageLabels
    exact getPdStageFromRisk_mem _

lemma assessMotor_range (f : FeatureSet) : assessRangeOK (assessMotor f) := by
  obtain ⟨h0, h1⟩ := motorPdRaw_mem f
  obtain ⟨hh0, hh1⟩ := motorHealthRaw_mem f
  unfold assessRangeOK
  refine ⟨?_, ?_, ?_, ?_, ?_, ?_, ?_, ?_, ?_, ?_⟩
  · show 0 ≤ round2 (motorPdRaw f * (1/10))
    exact round2_nonneg (by nlinarith)
  · show round2 (motorPdRaw f * (1/10)) ≤ 100
    exact round2_le_100 (by nlinarith)
  · show 0 ≤ round2 (motorPdRaw f)
    exact round2_nonneg h0
  · show round2 (motorPdRaw f) ≤ 100
    exact round2_le_100 (by linarith)
  · show 0 ≤ round2 (motorHealthRaw f)
    exact round2_nonneg hh0
  · show round2 (motorHealthRaw f) ≤ 100
    exact round2_le_100 hh1
  · show (calculateHoehnYahr (motorUpdrs f)).value ∈ stageLabels
    exact pdStageValue_mem _
  · show getSeverity (motorPdRaw f) ∈ severityLabels
    exact getSeverity_mem _
  · show getAdStageFromRisk (motorPdRaw f * (1/10)) ∈ stageLabels
    exact getAdStageFromRisk_mem _
  · show (calculateHoehnYahr (motorUpdrs f)).value ∈ stageLabels
    exact pdStageValue_mem _

lemma assessGait_range (f : FeatureSet) : assessRangeOK (assessGait f) := by
  obtain ⟨h0, h1⟩ := gaitPdRaw_mem f
  obtain ⟨hh0, hh1⟩ := gaitHealthRaw_mem f
  unfold assessRangeOK
  refine ⟨?_, ?_, ?_, ?_, ?_, ?_, ?_, ?_, ?_, ?_⟩
  · show 0 ≤ round2 (gaitPdRaw f * (15/100))
    exact round2_nonneg (by nlinarith)
  · show round2 (gaitPdRaw f * (15/100)) ≤ 100
    exact round2_le_100 (by nlinarith)
  · show 0 ≤ round2 (gaitPdRaw f)
    exact round2_nonneg h0
  · show round2 (gaitPdRaw f) ≤ 100
    exact round2_le_100 (by linarith)
  · show 0 ≤ round2 (gaitHealthRaw f)
    exact round2_nonneg hh0
  · show round2 (gaitHealthRaw f) ≤ 100
    exact round2_le_100 hh1
  · show (calculateHoehnYahr (gaitUpdrs f)).value ∈ stageLabels
    exact pdStageValue_mem _
  · show getSeverity (gaitPdRaw f) ∈ severityLabels
    exact getSeverity_mem _
  · show getAdStageFromRisk (gaitPdRaw f * (15/100)) ∈ stageLabels
    exact getAdStageFromRisk_mem _
  · show (calculateHoehnYahr (gaitUpdrs f)).value ∈ stageLabels
    exact pdStageValue_mem _

lemma assessFacial_range (f : FeatureSet) : assessRangeOK (assessFacial f) := by
  obtain ⟨h0, h1⟩ := facialPdRaw_mem f
  obtain ⟨hh0, hh1⟩ := facialHealthRaw_mem f
  unfold assessRangeOK
  refine ⟨?_, ?_, ?_, ?_, ?_, ?_, ?_, ?_, ?_, ?_⟩
  · show 0 ≤ round2 (facialPdRaw f * (5/100))
    exact round2_nonneg (by nlinarith)
  · show round2 (facialPdRaw f * (5/100)) ≤ 100
    exact round2_le_100 (by nlinarith)
  · show 0 ≤ round2 (facialPdRaw f)
    exact round2_nonneg h0
  · show round2 (facialPdRaw f) ≤ 100
    exact round2_le_100 (by linarith)
  · show 0 ≤ round2 (facialHealthRaw f)
    exact round2_nonneg hh0
  · show round2 (facialHealthRaw f) ≤ 100
    exact round2_le_100 hh1
  · show getStageFromRisk (facialPdRaw f) ∈ stageLabels
    exact getStageFromRisk_mem _
  · show getSeverity (facialPdRaw f) ∈ severityLabels
    exact getSeverity_mem _
  · show getAdStageFromRisk (facialPdRaw f * (5/100)) ∈ stageLabels
    exact getAdStageFromRisk_mem _
  · show getPdStageFromRisk (facialPdRaw f) ∈ stageLabels
    exact getPdStageFromRisk_mem _

lemma riskRangeOK_of (c : String) (f : FeatureSet)
    (h : assessRangeOK (dispatchAssess c f)) : riskRangeOK (calculateRiskScores c f) := by
  obtain ⟨a1, a2, a3, a4, a5, a6, a7, a8, a9, a10⟩ := h
  obtain ⟨e1, e2, e3, e4, e5, e6, e7⟩ := calc_fields c f
  obtain ⟨c1, c2⟩ := calc_conf_mem c f
  unfold riskRangeOK
  rw [e1, e2, e3, e4, e5, e6, e7]
  exact ⟨a1, a2, a3, a4, a5, a6, c1, c2, a7, a8, a9, a10⟩

/-! Bounds on the composite fusion (claim C4). -/

lemma WEIGHTS_AD_pos (c : String) : 0 < WEIGHTS_AD c := by
  unfold WEIGHTS_AD; split_ifs <;> norm_num

lemma WEIGHTS_PD_pos (c : String) : 0 < WEIGHTS_PD c := by
  unfold WEIGHTS_PD; split_ifs <;> norm_num

lemma adWeighted_nonneg : ∀ rs : List (String × RiskResult),
    (∀ p ∈ rs, 0 ≤ p.2.ad_risk) → 0 ≤ adWeighted rs := by
  intro rs
  induction rs with
  | nil => intro _; simp [adWeighted]
  | cons p t ih =>
    intro h
    have hp := h p (List.mem_cons_self p t)
    have ht := ih (fun q hq => h q (List.mem_cons_of_mem p hq))
    have hw := WEIGHTS_AD_pos p.1
    simp only [adWeighted, List.map_cons, List.sum_cons] at *
    nlinarith

lemma adWeighted_le : ∀ rs : List (String × RiskResult),
    (∀ p ∈ rs, p.2.ad_risk ≤ 100) → adWeighted rs ≤ 100 * totalAdWeight rs := by
  intro rs
  induction rs with
  | nil => intro _; simp [adWeighted, totalAdWeight]
  | cons p t ih =>
    intro h
    have hp := h p (List.mem_cons_self p t)
    have ht := ih (fun q hq => h q (List.mem_cons_of_mem p hq))
    have hw := WEIGHTS_AD_pos p.1
    simp only [adWeighted, totalAdWeight, List.map_cons, List.sum_cons] at *
    nlinarith

lemma pdWeighted_nonneg : ∀ rs : List (String × RiskResult),
    (∀ p ∈ rs, 0 ≤ p.2.pd_risk) → 0 ≤ pdWeighted rs := by
  intro rs
  induction rs with
  | nil => intro _; simp [pdWeighted]
  | cons p t ih =>
    intro h
    have hp := h p (List.mem_cons_self p t)
    have ht := ih (fun q hq => h q (List.mem_cons_of_mem p hq))
    have hw := WEIGHTS_PD_pos p.1
    simp only [pdWeighted, List.map_cons, List.sum_cons] at *
    nlinarith

lemma pdWeighted_le : ∀ rs : List (String × RiskResult),
    (∀ p ∈ rs, p.2.pd_risk ≤ 100) → pdWeighted rs ≤ 100 * totalPdWeight rs := by
  intro rs
  induction rs with
  | nil => intro _; simp [pdWeighted, totalPdWeight]
  | cons p t ih =>
    intro h
    have hp := h p (List.mem_cons_self p t)
    have ht := ih (fun q hq => h q (List.mem_cons_of_mem p hq))
    have hw := WEIGHTS_PD_pos p.1
    simp only [pdWeighted, totalPdWeight, List.map_cons, List.sum_cons] at *
    nlinarith

lemma compositeAdRaw_mem (rs : List (String × RiskResult))
    (h0 : ∀ p ∈ rs, 0 ≤ p.2.ad_risk) (h1 : ∀ p ∈ rs, p.2.ad_risk ≤ 100) :
    0 ≤ compositeAdRaw rs ∧ compositeAdRaw rs ≤ 100 := by
  unfold compositeAdRaw
  split_ifs with hw
  · constructor
    · exact div_nonneg (adWeighted_nonneg rs h0) hw.le
    · rw [div_le_iff₀ hw]
      exact adWeighted_le rs h1
  · norm_num

lemma compositePdRaw_mem (rs : List (String × RiskResult))
    (h0 : ∀ p ∈ rs, 0 ≤ p.2.pd_risk) (h1 : ∀ p ∈ rs, p.2.pd_risk ≤ 100) :
    0 ≤ compositePdRaw rs ∧ compositePdRaw rs ≤ 100 := by
  unfold compositePdRaw
  split_ifs with hw
  · constructor
    · exact div_nonneg (pdWeighted_nonneg rs h0) hw.le
    · rw [div_le_iff₀ hw]
      exact pdWeighted_le rs h1
  · norm_num

/-- C4: every per-category result of the five categories carries risks and
scores in [0,100], a validity confidence in [0,1], and stage and severity
labels from the closed enumerations; and the composite risks of
fuse_composite stay in [0,100] whenever the supplied per-category risks
do. -/
theorem C4_range_invariant :
    (∀ (category : String) (f : FeatureSet),
      category ∈ (["cognitive", "speech", "motor", "gait", "facial"] : List String) →
      riskRangeOK (calculateRiskScores category f)) ∧
    (∀ rs : List (String × RiskResult),
      (∀ p ∈ rs, 0 ≤ p.2.ad_risk ∧ p.2.ad_risk ≤ 100 ∧
                 0 ≤ p.2.pd_risk ∧ p.2.pd_risk ≤ 100) →
      (0 ≤ (fuseComposite rs).composite_ad_risk ∧
       (fuseComposite rs).composite_ad_risk ≤ 100 ∧
       0 ≤ (fuseComposite rs).composite_pd_risk ∧
       (fuseComposite rs).composite_pd_risk ≤ 100 ∧
       0 ≤ (fuseComposite rs).overall_risk ∧
       (fuseComposite rs).overall_risk ≤ 100)) := by
  constructor
  · intro c f hc
    simp only [List.mem_cons, List.not_mem_nil, or_false] at hc
    rcases hc with rfl | rfl | rfl | rfl | rfl
    · exact riskRangeOK_of _ _ (by rw [dispatchAssess_cognitive]; exact assessCognitive_range f)
    · exact riskRangeOK_of _ _ (by rw [dispatchAssess_speech]; exact assessSpeech_range f)
    · exact riskRangeOK_of _ _ (by rw [dispatchAssess_motor]; exact assessMotor_range f)
    · exact riskRangeOK_of _ _ (by rw [dispatchAssess_gait]; exact assessGait_range f)
    · exact riskRangeOK_of _ _ (by rw [dispatchAssess_facial]; exact assessFacial_range f)
  · intro rs h
    obtain ⟨ha0, ha1⟩ := compositeAdRaw_mem rs (fun p hp => (h p hp).1) (fun p hp => (h p hp).2.1)
    obtain ⟨hp0, hp1⟩ := compositePdRaw_mem rs (fun p hp => (h p hp).2.2.1) (fun p hp => (h p hp).2.2.2)
    refine ⟨?_, ?_, ?_, ?_, ?_, ?_⟩
    · show 0 ≤ round2 (compositeAdRaw rs)
      exact round2_nonneg ha0
    · show round2 (compositeAdRaw rs) ≤ 100
      exact round2_le_100 ha1
    · show 0 ≤ round2 (compositePdRaw rs)
      exact round2_nonneg hp0
    · show round2 (compositePdRaw rs) ≤ 100
      exact round2_le_100 hp1
    · show 0 ≤ round2 (max (compositeAdRaw rs) (compositePdRaw rs))
      exact round2_nonneg (le_trans ha0 (le_max_left _ _))
    · show round2 (max (compositeAdRaw rs) (compositePdRaw rs)) ≤ 100
      exact round2_le_100 (max_le ha1 hp1)

/-- C4 witness: the range invariant applied to the motor category on the
empty FeatureSet, and the composite bounds applied to the empty result
list. -/
theorem C4_witness :
    riskRangeOK (calculateRiskScores "motor" emptyFS) ∧
    (0 ≤ (fuseComposite []).composite_ad_risk ∧
     (fuseComposite []).composite_ad_risk ≤ 100 ∧
     0 ≤ (fuseComposite []).composite_pd_risk ∧
     (fuseComposite []).composite_pd_risk ≤ 100 ∧
     0 ≤ (fuseComposite []).overall_risk ∧
     (fuseComposite []).overall_risk ≤ 100) :=
  ⟨C4_range_invariant.1 "motor" emptyFS (by decide),
   C4_range_invariant.2 [] (by simp)⟩

/-- C2 witness: the default-path clause of the amended claim applied to the
concrete unrecognized category string wellness. -/
theorem C2_witness :
    (calculateRiskScores "wellness" emptyFS).category_score = 50 ∧
    (calculateRiskScores "wellness" emptyFS).clinical_notes =
      ["Insufficient data for assessment"] :=
  C2_empty_default_behaviour.2.2.2.2.2 "wellness" (by decide)

end Neuroverse
